import Mathlib

/-!
Verification development for the résumé scoring engine in
`src/components/ai_analyzer.py` (class `ProfessionalAIAnalyzer`).

Modelling conventions (shallow embedding):
* Texts are `List Char`; Python's `str.lower()` is modelled by `Char.toLower`
  (ASCII case folding; every analysed text and every table string in scope is
  ASCII apart from a few pre-lowercased accented skill names).
* Python floats are modelled as exact rationals (`ℚ`); `round(x, 2)` is
  modelled by exact round-half-to-even at two decimals (`roundQ2`).
* Python regular expressions used by the analyzer are literal phrases with
  word boundaries (`\b`), optional pieces and negative lookaheads; each is
  translated into an explicit scanner over `List Char` with the same
  match-existence semantics (`re.search`) or match-enumeration semantics
  (`re.findall`, leftmost non-overlapping).
* The repository ships no `data/skills_database.json`, so the analyzer always
  falls back to the embedded default `skills_db` literal; in that literal every
  category maps to a dict of subcategories, hence the `isinstance(..., list)`
  branches of the source are unreachable and skill maps are modelled with the
  nested shape `List (category × List (subcategory × List skill))`.
* Fields of the final report that are pure display strings (recommendations,
  reasoning, scoring_rationale, skills_found) and the display-only
  `companies` / `quality_indicators` parts of the experience profile are not
  modelled; no claim mentions them.  All numeric and structural fields are.
-/

namespace ResumeScreener

set_option maxRecDepth 1000000

set_option maxHeartbeats 8000000

abbrev Text := List Char

/-- Python `str.lower()` (ASCII folding, see header). -/
def lowerText (t : Text) : Text := t.map Char.toLower

def lowerString (s : String) : String := String.mk (lowerText s.data)

/-- Python `\w` (word character): alphanumeric or underscore; characters
beyond ASCII (é, •, …) are word characters in Python's unicode `\w` for the
letters that occur in the embedded data. -/
def isWordChar (c : Char) : Bool := c.isAlphanum || c == '_' || 128 ≤ c.toNat

/-- Python `\s` (ASCII whitespace). -/
def isSpaceChar (c : Char) : Bool :=
  c == ' ' || c == '\t' || c == '\n' || c == '\r' || c == '\x0b' || c == '\x0c'

/-- `p` is a prefix of `l` (used for literal matching at a position). -/
def listPrefix : Text → Text → Bool
  | [], _ => true
  | _ :: _, [] => false
  | a :: as, b :: bs => a == b && listPrefix as bs

/-- Python's substring test `needle in haystack`. -/
def containsSub : Text → Text → Bool
  | n, [] => listPrefix n []
  | n, h@(_ :: t) => listPrefix n h || containsSub n t

def containsStr (needle : String) (hay : Text) : Bool := containsSub needle.data hay

/-- Last character of a nonempty pattern (patterns in this file are nonempty). -/
def lastCharD (t : Text) (d : Char) : Char := t.getLastD d

/-- Association-list lookup, mirroring Python `dict.get` over the embedded
tables whose iteration order is their insertion order. -/
def alookup {α : Type} : List (String × α) → String → Option α
  | [], _ => none
  | (k, v) :: t, key => if k == key then some v else alookup t key

/-- Python `str.strip()` (whitespace). -/
def stripText (t : Text) : Text :=
  ((t.dropWhile isSpaceChar).reverse.dropWhile isSpaceChar).reverse

/-- `job_description.strip()` is falsy. -/
def isBlankStr (s : String) : Bool := (stripText s.data).isEmpty

/-- Digits to a natural number (`int(...)` on a digit run). -/
def natOfDigits (d : Text) : ℕ := d.foldl (fun a c => a * 10 + (c.toNat - 48)) 0

/-- Round half to even at integer precision, modelling CPython `round`. -/
def roundHalfEven (x : ℚ) : ℤ :=
  if x - ⌊x⌋ < 1/2 then ⌊x⌋
  else if 1/2 < x - ⌊x⌋ then ⌊x⌋ + 1
  else if ⌊x⌋ % 2 = 0 then ⌊x⌋ else ⌊x⌋ + 1

/-- Python `round(x, 2)`. -/
def roundQ2 (x : ℚ) : ℚ := (roundHalfEven (100 * x) : ℚ) / 100

def skills_db : List (String × List (String × List String)) :=
[  ("programming_languages", [
    ("web_development", ["javascript", "typescript", "html", "css", "php", "ruby", "node.js"]),
    ("backend", ["python", "java", "c#", "c++", "go", "rust", "scala", "kotlin", "asp.net"]),
    ("mobile", ["swift", "objective-c", "dart", "flutter", "react native", "xamarin", "ionic"]),
    ("data_science", ["python", "r", "matlab", "julia", "sql", "sas", "spss", "stata"]),
    ("systems", ["c", "c++", "assembly", "verilog", "vhdl", "embedded c", "arduino"]),
    ("scripting", ["bash", "powershell", "perl", "lua", "tcl", "awk", "sed"])]),
  ("web_technologies", [
    ("frontend_frameworks", ["react", "angular", "vue.js", "svelte", "ember.js", "backbone.js"]),
    ("backend_frameworks", ["django", "flask", "express.js", "spring", "laravel", "rails", "fastapi"]),
    ("css_frameworks", ["bootstrap", "tailwind", "bulma", "foundation", "materialize"]),
    ("build_tools", ["webpack", "gulp", "grunt", "parcel", "vite", "rollup", "esbuild"]),
    ("cms", ["wordpress", "drupal", "joomla", "strapi", "contentful", "sanity"])]),
  ("databases", [
    ("relational", ["mysql", "postgresql", "sqlite", "oracle", "sql server", "mariadb"]),
    ("nosql", ["mongodb", "redis", "cassandra", "dynamodb", "couchdb", "firebase"]),
    ("graph", ["neo4j", "amazon neptune", "arangodb", "dgraph"]),
    ("time_series", ["influxdb", "timescaledb", "prometheus", "clickhouse"]),
    ("data_warehousing", ["snowflake", "redshift", "bigquery", "synapse", "teradata"])]),
  ("cloud_platforms", [
    ("aws", ["ec2", "s3", "lambda", "rds", "cloudformation", "eks", "ecs", "sagemaker"]),
    ("azure", ["azure functions", "blob storage", "cosmos db", "aks", "azure ml", "power platform"]),
    ("gcp", ["compute engine", "cloud storage", "bigquery", "gke", "cloud functions", "vertex ai"]),
    ("general", ["docker", "kubernetes", "terraform", "ansible", "vagrant", "helm"]),
    ("devops", ["jenkins", "gitlab ci", "github actions", "travis ci", "circleci", "teamcity"])]),
  ("culinary_skills", [
    ("cooking_techniques", ["grilling", "roasting", "sautéing", "braising", "poaching", "frying", "steaming", "baking", "broiling", "smoking", "sous vide", "confit", "flambé"]),
    ("cuisine_types", ["italian", "french", "asian", "mexican", "mediterranean", "american", "indian", "thai", "chinese", "japanese", "korean", "middle eastern", "fusion"]),
    ("food_preparation", ["knife skills", "food prep", "mise en place", "plating", "garnishing", "portioning", "butchery", "filleting", "vegetable carving"]),
    ("kitchen_management", ["inventory", "cost control", "menu planning", "kitchen safety", "sanitation", "haccp", "food ordering", "staff scheduling", "quality control"]),
    ("specialized_skills", ["pastry", "bread making", "wine pairing", "molecular gastronomy", "farm to table", "organic cooking", "dietary restrictions", "allergen management"]),
    ("baking_pastry", ["bread making", "cake decorating", "pastry arts", "chocolate work", "sugar work", "lamination", "fermentation", "artisan breads"]),
    ("beverage", ["coffee preparation", "tea blending", "cocktail mixing", "wine service", "beer knowledge", "spirits knowledge", "barista skills"]),
    ("dietary_specializations", ["vegan cooking", "vegetarian", "gluten-free", "keto", "paleo", "diabetic-friendly", "halal", "kosher", "raw food"])]),
  ("healthcare_skills", [
    ("clinical", ["patient care", "vital signs", "medication administration", "wound care", "iv therapy", "injections", "blood draws"]),
    ("diagnostic", ["x-ray", "mri", "ct scan", "ultrasound", "blood work", "ecg", "ekg", "spirometry"]),
    ("specialties", ["emergency medicine", "pediatrics", "cardiology", "oncology", "surgery", "anesthesia", "psychiatry", "dermatology"]),
    ("certifications", ["cpr", "bls", "acls", "pals", "cna", "rn", "lpn", "nrp", "tncc"]),
    ("nursing", ["bedside manner", "patient assessment", "care planning", "documentation", "family education", "discharge planning"]),
    ("medical_admin", ["medical coding", "icd-10", "cpt codes", "insurance verification", "emr systems", "epic", "cerner"]),
    ("laboratory", ["phlebotomy", "lab testing", "specimen collection", "microscopy", "blood bank", "microbiology"]),
    ("therapy", ["physical therapy", "occupational therapy", "speech therapy", "respiratory therapy", "massage therapy"])]),
  ("creative_arts", [
    ("music", ["singing", "vocal performance", "music theory", "composition", "live performance", "stage presence", "pitch control"]),
    ("performance", ["stage presence", "audience engagement", "entertainment", "acting", "dancing", "comedy", "storytelling"]),
    ("production", ["studio recording", "audio production", "mixing", "mastering", "sound engineering", "music production"]),
    ("instruments", ["guitar", "piano", "drums", "violin", "saxophone", "bass", "keyboard", "flute", "trumpet"]),
    ("genres", ["pop", "rock", "jazz", "classical", "country", "r&b", "hip hop", "folk", "blues", "electronic"]),
    ("visual_arts", ["painting", "drawing", "sculpture", "photography", "graphic design", "illustration", "digital art"]),
    ("design", ["ui/ux design", "web design", "logo design", "branding", "typography", "color theory", "adobe creative suite"]),
    ("video", ["video editing", "cinematography", "animation", "motion graphics", "after effects", "premiere pro"])]),
  ("business_finance", [
    ("accounting", ["bookkeeping", "financial statements", "tax preparation", "auditing", "accounts payable", "accounts receivable", "payroll"]),
    ("analysis", ["financial analysis", "budget planning", "forecasting", "cost analysis", "roi analysis", "variance analysis", "ratio analysis"]),
    ("tools", ["excel", "quickbooks", "sap", "oracle", "bloomberg", "sage", "xero", "freshbooks"]),
    ("certifications", ["cpa", "cfa", "frm", "cma", "cia", "acca", "ca", "cga"]),
    ("banking", ["commercial banking", "investment banking", "retail banking", "credit analysis", "loan processing", "risk management"]),
    ("insurance", ["underwriting", "claims processing", "actuarial analysis", "risk assessment", "policy administration"]),
    ("investments", ["portfolio management", "equity research", "fixed income", "derivatives", "asset management", "wealth management"])]),
  ("sales_marketing", [
    ("sales", ["lead generation", "cold calling", "client relationships", "closing deals", "crm", "b2b sales", "b2c sales", "inside sales"]),
    ("digital_marketing", ["seo", "sem", "social media", "content marketing", "email marketing", "ppc", "google ads", "facebook ads"]),
    ("traditional_marketing", ["print advertising", "radio", "tv", "outdoor advertising", "events", "trade shows", "direct mail"]),
    ("analytics", ["google analytics", "facebook insights", "conversion tracking", "a/b testing", "marketing automation"]),
    ("brand_management", ["brand strategy", "brand positioning", "brand awareness", "brand equity", "corporate identity"]),
    ("public_relations", ["media relations", "press releases", "crisis communication", "event planning", "corporate communications"]),
    ("e_commerce", ["shopify", "magento", "woocommerce", "amazon fba", "dropshipping", "marketplace management"])]),
  ("education_skills", [
    ("teaching", ["lesson planning", "curriculum development", "classroom management", "assessment", "differentiated instruction"]),
    ("training", ["corporate training", "skill development", "workshop facilitation", "e-learning", "instructional design"]),
    ("specialties", ["special education", "esl", "stem", "arts education", "adult education", "early childhood"]),
    ("technology", ["learning management systems", "educational technology", "online teaching", "virtual classrooms"]),
    ("administration", ["school administration", "educational leadership", "policy development", "budget management"]),
    ("counseling", ["academic counseling", "career guidance", "student support", "behavioral intervention"])]),
  ("manufacturing_engineering", [
    ("mechanical", ["mechanical engineering", "cad design", "autocad", "solidworks", "manufacturing processes", "quality control"]),
    ("electrical", ["electrical engineering", "circuit design", "plc programming", "automation", "control systems"]),
    ("industrial", ["industrial engineering", "process optimization", "lean manufacturing", "six sigma", "operations research"]),
    ("civil", ["civil engineering", "structural design", "construction management", "project planning", "surveying"]),
    ("chemical", ["chemical engineering", "process engineering", "chemical processes", "safety protocols"]),
    ("production", ["production planning", "inventory management", "supply chain", "logistics", "warehouse management"]),
    ("quality", ["quality assurance", "iso standards", "statistical process control", "inspection", "testing"])]),
  ("legal_skills", [
    ("practice_areas", ["corporate law", "criminal law", "family law", "real estate law", "intellectual property", "employment law"]),
    ("litigation", ["trial advocacy", "legal research", "brief writing", "depositions", "negotiations", "mediation"]),
    ("compliance", ["regulatory compliance", "risk management", "policy development", "audit", "governance"]),
    ("documentation", ["contract drafting", "legal writing", "case management", "document review"]),
    ("paralegal", ["legal assistant", "case preparation", "client communication", "filing", "research support"])]),
  ("transportation_logistics", [
    ("driving", ["commercial driving", "cdl", "truck driving", "delivery services", "route planning", "vehicle maintenance"]),
    ("logistics", ["supply chain management", "inventory control", "warehouse operations", "shipping", "receiving"]),
    ("aviation", ["pilot license", "air traffic control", "aircraft maintenance", "flight operations", "aviation safety"]),
    ("maritime", ["ship operations", "navigation", "marine engineering", "port operations", "maritime safety"]),
    ("public_transport", ["bus driving", "train operations", "transit planning", "passenger service"])]),
  ("agriculture_environment", [
    ("farming", ["crop management", "livestock care", "irrigation", "pest control", "organic farming", "sustainable agriculture"]),
    ("environmental", ["environmental science", "conservation", "sustainability", "waste management", "renewable energy"]),
    ("forestry", ["forest management", "timber harvesting", "wildlife conservation", "fire prevention"]),
    ("veterinary", ["animal care", "veterinary medicine", "animal behavior", "pet grooming", "animal training"])]),
  ("security_safety", [
    ("security", ["physical security", "cybersecurity", "surveillance", "access control", "security protocols", "risk assessment"]),
    ("law_enforcement", ["police work", "criminal investigation", "forensics", "emergency response", "public safety"]),
    ("fire_safety", ["firefighting", "fire prevention", "emergency medical services", "hazmat response", "rescue operations"]),
    ("occupational_safety", ["workplace safety", "osha compliance", "safety training", "accident investigation", "safety audits"])]),
  ("real_estate_construction", [
    ("real_estate", ["property management", "real estate sales", "property valuation", "leasing", "real estate investment"]),
    ("construction", ["construction management", "carpentry", "plumbing", "electrical work", "masonry", "roofing"]),
    ("architecture", ["architectural design", "building codes", "construction drawings", "project management"]),
    ("trades", ["welding", "painting", "flooring", "hvac", "landscaping", "demolition"])]),
  ("hospitality_tourism", [
    ("hotel_management", ["front desk operations", "housekeeping", "concierge services", "revenue management", "guest relations"]),
    ("food_service", ["restaurant management", "catering", "banquet services", "menu planning", "cost control"]),
    ("tourism", ["tour guide", "travel planning", "destination management", "cultural interpretation", "language skills"]),
    ("event_planning", ["event coordination", "wedding planning", "corporate events", "vendor management", "budget planning"])]),
  ("sports_recreation", [
    ("coaching", ["sports coaching", "athletic training", "fitness instruction", "team management", "player development"]),
    ("fitness", ["personal training", "group fitness", "yoga instruction", "nutrition counseling", "exercise physiology"]),
    ("sports_specific", ["football", "basketball", "soccer", "tennis", "swimming", "track and field", "martial arts"]),
    ("recreation", ["camp counseling", "outdoor recreation", "adventure sports", "community recreation"])]),
  ("retail_customer_service", [
    ("retail", ["retail sales", "merchandising", "inventory management", "pos systems", "visual merchandising"]),
    ("customer_service", ["call center", "customer support", "complaint resolution", "phone etiquette", "chat support"]),
    ("cashier", ["cash handling", "payment processing", "register operations", "money counting", "transaction processing"])]),
  ("human_resources", [
    ("recruiting", ["talent acquisition", "interviewing", "candidate screening", "job posting", "background checks"]),
    ("hr_operations", ["payroll", "benefits administration", "employee relations", "policy development", "compliance"]),
    ("training", ["employee training", "onboarding", "performance management", "career development", "succession planning"]),
    ("compensation", ["compensation analysis", "salary surveys", "job evaluation", "incentive programs"])]),
  ("data_science", [
    ("machine_learning", ["scikit-learn", "tensorflow", "pytorch", "keras", "xgboost", "neural networks", "deep learning"]),
    ("data_analysis", ["pandas", "numpy", "scipy", "matplotlib", "seaborn", "statistical analysis", "hypothesis testing"]),
    ("visualization", ["tableau", "power bi", "d3.js", "plotly", "ggplot2", "qlik", "looker"]),
    ("big_data", ["hadoop", "spark", "kafka", "airflow", "databricks", "hive", "pig"]),
    ("statistics", ["regression", "classification", "clustering", "time series", "bayesian analysis", "experimental design"]),
    ("business_intelligence", ["data warehousing", "etl", "reporting", "dashboards", "kpi development"])]),
  ("market_research", [
    ("quantitative", ["statistical analysis", "survey design", "a/b testing", "regression analysis", "conjoint analysis"]),
    ("qualitative", ["ethnographic research", "user research", "behavioral analysis", "focus groups", "interviews"]),
    ("tools", ["qualtrics", "surveymonkey", "usertesting", "hotjar", "spss", "sas", "stata"]),
    ("methodologies", ["market segmentation", "brand tracking", "customer satisfaction", "pricing research", "concept testing"]),
    ("digital_research", ["social media monitoring", "web analytics", "seo research", "competitive intelligence"]),
    ("consumer_insights", ["consumer behavior", "purchase intent", "brand perception", "customer journey mapping"])]),
  ("business_consulting", [
    ("strategy", ["business strategy", "strategic planning", "competitive analysis", "market entry", "growth strategy"]),
    ("operations", ["process improvement", "change management", "lean six sigma", "kaizen", "business process reengineering"]),
    ("management", ["project management", "stakeholder management", "business analysis", "requirements gathering"]),
    ("frameworks", ["mckinsey", "bcg", "swot analysis", "porter\x27s five forces", "value chain analysis", "balanced scorecard"]),
    ("digital_transformation", ["technology implementation", "digital strategy", "automation", "workflow optimization"]),
    ("organizational", ["organizational design", "culture change", "leadership development", "team effectiveness"])]),
  ("soft_skills", [
    ("leadership", ["leadership", "team management", "mentoring", "coaching", "delegation", "vision setting"]),
    ("communication", ["communication", "presentation", "public speaking", "writing", "negotiation", "active listening"]),
    ("analytical", ["problem solving", "analytical thinking", "critical thinking", "decision making", "research skills"]),
    ("interpersonal", ["teamwork", "collaboration", "empathy", "emotional intelligence", "cultural sensitivity"]),
    ("adaptability", ["flexibility", "adaptability", "learning agility", "innovation", "change management"]),
    ("time_management", ["prioritization", "multitasking", "deadline management", "efficiency", "productivity"]),
    ("creativity", ["creative thinking", "innovation", "brainstorming", "design thinking", "artistic vision"])]),
  ("languages", [
    ("english", ["english", "business english", "technical writing", "academic english", "conversational english"]),
    ("european", ["spanish", "french", "german", "italian", "portuguese", "dutch", "swedish", "norwegian"]),
    ("asian", ["mandarin", "japanese", "korean", "hindi", "arabic", "thai", "vietnamese", "tagalog"]),
    ("south_asian", ["urdu", "hindi", "bengali", "punjabi", "tamil", "gujarati", "marathi"]),
    ("middle_eastern", ["arabic", "persian", "turkish", "hebrew", "kurdish"]),
    ("african", ["swahili", "afrikaans", "amharic", "yoruba", "zulu"])]),
  ("certifications", [
    ("it", ["cissp", "cisa", "cism", "comptia", "cisco", "microsoft", "aws", "azure", "google cloud"]),
    ("project_management", ["pmp", "prince2", "agile", "scrum master", "csm", "safe", "itil"]),
    ("finance", ["cpa", "cfa", "frm", "cma", "cia", "acca", "ca"]),
    ("marketing", ["google ads", "facebook blueprint", "hubspot", "salesforce", "marketo"]),
    ("quality", ["six sigma", "lean", "iso", "cmmi", "cobit"]),
    ("healthcare", ["cpr", "bls", "acls", "pals", "tncc", "ccrn"]),
    ("real_estate", ["real estate license", "property management", "appraisal certification"])])]

structure RoleConfig where
  required_skills : List String
  preferred_skills : List String
  weights : List (String × ℚ)
  contextual_bonus : Nat
  minimum_threshold : Nat
deriving Repr, DecidableEq

def industry_role_weights : List (String × RoleConfig) :=
[  ("chef", { required_skills := ["culinary_skills"], preferred_skills := ["soft_skills", "business_finance", "languages"], weights := [("skills", (0.6 : ℚ)), ("experience", (0.25 : ℚ)), ("education", (0.1 : ℚ)), ("passion", (0.05 : ℚ))], contextual_bonus := 60, minimum_threshold := 40 }),
  ("cook", { required_skills := ["culinary_skills"], preferred_skills := ["soft_skills"], weights := [("skills", (0.55 : ℚ)), ("experience", (0.3 : ℚ)), ("education", (0.1 : ℚ)), ("reliability", (0.05 : ℚ))], contextual_bonus := 60, minimum_threshold := 35 }),
  ("baker", { required_skills := ["culinary_skills"], preferred_skills := ["soft_skills", "business_finance"], weights := [("skills", (0.65 : ℚ)), ("experience", (0.25 : ℚ)), ("education", (0.1 : ℚ))], contextual_bonus := 60, minimum_threshold := 40 }),
  ("barista", { required_skills := ["culinary_skills", "retail_customer_service"], preferred_skills := ["soft_skills"], weights := [("skills", (0.5 : ℚ)), ("experience", (0.3 : ℚ)), ("customer_service", (0.2 : ℚ))], contextual_bonus := 50, minimum_threshold := 35 }),
  ("nurse", { required_skills := ["healthcare_skills"], preferred_skills := ["soft_skills", "certifications"], weights := [("skills", (0.5 : ℚ)), ("experience", (0.3 : ℚ)), ("education", (0.15 : ℚ)), ("certifications", (0.05 : ℚ))], contextual_bonus := 60, minimum_threshold := 50 }),
  ("doctor", { required_skills := ["healthcare_skills"], preferred_skills := ["soft_skills", "certifications"], weights := [("skills", (0.45 : ℚ)), ("experience", (0.25 : ℚ)), ("education", (0.25 : ℚ)), ("certifications", (0.05 : ℚ))], contextual_bonus := 70, minimum_threshold := 70 }),
  ("medical_assistant", { required_skills := ["healthcare_skills"], preferred_skills := ["soft_skills", "retail_customer_service"], weights := [("skills", (0.55 : ℚ)), ("experience", (0.25 : ℚ)), ("education", (0.15 : ℚ)), ("certification", (0.05 : ℚ))], contextual_bonus := 55, minimum_threshold := 45 }),
  ("pharmacist", { required_skills := ["healthcare_skills"], preferred_skills := ["soft_skills", "retail_customer_service"], weights := [("skills", (0.5 : ℚ)), ("experience", (0.25 : ℚ)), ("education", (0.2 : ℚ)), ("certification", (0.05 : ℚ))], contextual_bonus := 65, minimum_threshold := 60 }),
  ("software_engineer", { required_skills := ["programming_languages", "databases"], preferred_skills := ["cloud_platforms", "soft_skills"], weights := [("skills", (0.5 : ℚ)), ("experience", (0.25 : ℚ)), ("education", (0.15 : ℚ)), ("projects", (0.1 : ℚ))], contextual_bonus := 60, minimum_threshold := 55 }),
  ("web_developer", { required_skills := ["programming_languages", "web_technologies"], preferred_skills := ["cloud_platforms", "soft_skills"], weights := [("skills", (0.5 : ℚ)), ("experience", (0.25 : ℚ)), ("education", (0.15 : ℚ)), ("projects", (0.1 : ℚ))], contextual_bonus := 60, minimum_threshold := 55 }),
  ("data_scientist", { required_skills := ["data_science", "programming_languages"], preferred_skills := ["cloud_platforms", "databases"], weights := [("skills", (0.45 : ℚ)), ("experience", (0.25 : ℚ)), ("education", (0.2 : ℚ)), ("projects", (0.1 : ℚ))], contextual_bonus := 60, minimum_threshold := 60 }),
  ("data_analyst", { required_skills := ["data_science", "programming_languages"], preferred_skills := ["databases", "soft_skills"], weights := [("skills", (0.45 : ℚ)), ("experience", (0.25 : ℚ)), ("education", (0.2 : ℚ)), ("projects", (0.1 : ℚ))], contextual_bonus := 60, minimum_threshold := 55 }),
  ("cybersecurity_specialist", { required_skills := ["security_safety", "programming_languages"], preferred_skills := ["cloud_platforms", "certifications"], weights := [("skills", (0.5 : ℚ)), ("experience", (0.3 : ℚ)), ("education", (0.15 : ℚ)), ("certifications", (0.05 : ℚ))], contextual_bonus := 65, minimum_threshold := 60 }),
  ("singer_performer", { required_skills := ["creative_arts"], preferred_skills := ["soft_skills"], weights := [("skills", (0.4 : ℚ)), ("experience", (0.35 : ℚ)), ("performance_quality", (0.15 : ℚ)), ("education", (0.1 : ℚ))], contextual_bonus := 60, minimum_threshold := 40 }),
  ("graphic_designer", { required_skills := ["creative_arts"], preferred_skills := ["soft_skills", "web_technologies"], weights := [("skills", (0.5 : ℚ)), ("experience", (0.3 : ℚ)), ("portfolio", (0.15 : ℚ)), ("education", (0.05 : ℚ))], contextual_bonus := 55, minimum_threshold := 45 }),
  ("photographer", { required_skills := ["creative_arts"], preferred_skills := ["soft_skills", "business_finance"], weights := [("skills", (0.45 : ℚ)), ("experience", (0.3 : ℚ)), ("portfolio", (0.2 : ℚ)), ("education", (0.05 : ℚ))], contextual_bonus := 55, minimum_threshold := 40 }),
  ("video_editor", { required_skills := ["creative_arts"], preferred_skills := ["soft_skills", "programming_languages"], weights := [("skills", (0.55 : ℚ)), ("experience", (0.25 : ℚ)), ("portfolio", (0.15 : ℚ)), ("education", (0.05 : ℚ))], contextual_bonus := 55, minimum_threshold := 45 }),
  ("accountant", { required_skills := ["business_finance"], preferred_skills := ["soft_skills", "programming_languages"], weights := [("skills", (0.5 : ℚ)), ("experience", (0.3 : ℚ)), ("education", (0.15 : ℚ)), ("certifications", (0.05 : ℚ))], contextual_bonus := 60, minimum_threshold := 55 }),
  ("financial_analyst", { required_skills := ["business_finance", "data_science"], preferred_skills := ["programming_languages", "soft_skills"], weights := [("skills", (0.45 : ℚ)), ("experience", (0.3 : ℚ)), ("education", (0.15 : ℚ)), ("certifications", (0.1 : ℚ))], contextual_bonus := 60, minimum_threshold := 55 }),
  ("investment_banker", { required_skills := ["business_finance"], preferred_skills := ["soft_skills", "data_science"], weights := [("skills", (0.4 : ℚ)), ("experience", (0.35 : ℚ)), ("education", (0.2 : ℚ)), ("network", (0.05 : ℚ))], contextual_bonus := 65, minimum_threshold := 65 }),
  ("sales_representative", { required_skills := ["sales_marketing", "soft_skills"], preferred_skills := ["business_finance"], weights := [("skills", (0.4 : ℚ)), ("experience", (0.35 : ℚ)), ("education", (0.15 : ℚ)), ("results", (0.1 : ℚ))], contextual_bonus := 60, minimum_threshold := 45 }),
  ("marketing_manager", { required_skills := ["sales_marketing", "soft_skills"], preferred_skills := ["data_science", "creative_arts"], weights := [("skills", (0.45 : ℚ)), ("experience", (0.3 : ℚ)), ("education", (0.15 : ℚ)), ("campaigns", (0.1 : ℚ))], contextual_bonus := 60, minimum_threshold := 50 }),
  ("digital_marketer", { required_skills := ["sales_marketing", "web_technologies"], preferred_skills := ["data_science", "creative_arts"], weights := [("skills", (0.5 : ℚ)), ("experience", (0.25 : ℚ)), ("education", (0.15 : ℚ)), ("certifications", (0.1 : ℚ))], contextual_bonus := 60, minimum_threshold := 50 }),
  ("teacher", { required_skills := ["education_skills", "soft_skills"], preferred_skills := ["languages"], weights := [("skills", (0.45 : ℚ)), ("experience", (0.3 : ℚ)), ("education", (0.2 : ℚ)), ("passion", (0.05 : ℚ))], contextual_bonus := 60, minimum_threshold := 50 }),
  ("professor", { required_skills := ["education_skills", "soft_skills"], preferred_skills := ["research_tools"], weights := [("skills", (0.4 : ℚ)), ("experience", (0.25 : ℚ)), ("education", (0.25 : ℚ)), ("research", (0.1 : ℚ))], contextual_bonus := 65, minimum_threshold := 60 }),
  ("tutor", { required_skills := ["education_skills", "soft_skills"], preferred_skills := ["languages"], weights := [("skills", (0.5 : ℚ)), ("experience", (0.25 : ℚ)), ("education", (0.2 : ℚ)), ("results", (0.05 : ℚ))], contextual_bonus := 55, minimum_threshold := 40 }),
  ("mechanical_engineer", { required_skills := ["manufacturing_engineering"], preferred_skills := ["programming_languages", "soft_skills"], weights := [("skills", (0.5 : ℚ)), ("experience", (0.3 : ℚ)), ("education", (0.15 : ℚ)), ("projects", (0.05 : ℚ))], contextual_bonus := 60, minimum_threshold := 55 }),
  ("electrical_engineer", { required_skills := ["manufacturing_engineering"], preferred_skills := ["programming_languages", "soft_skills"], weights := [("skills", (0.5 : ℚ)), ("experience", (0.3 : ℚ)), ("education", (0.15 : ℚ)), ("projects", (0.05 : ℚ))], contextual_bonus := 60, minimum_threshold := 55 }),
  ("civil_engineer", { required_skills := ["manufacturing_engineering", "real_estate_construction"], preferred_skills := ["soft_skills"], weights := [("skills", (0.5 : ℚ)), ("experience", (0.3 : ℚ)), ("education", (0.15 : ℚ)), ("projects", (0.05 : ℚ))], contextual_bonus := 60, minimum_threshold := 55 }),
  ("lawyer", { required_skills := ["legal_skills"], preferred_skills := ["soft_skills", "languages"], weights := [("skills", (0.45 : ℚ)), ("experience", (0.3 : ℚ)), ("education", (0.2 : ℚ)), ("bar_exam", (0.05 : ℚ))], contextual_bonus := 65, minimum_threshold := 60 }),
  ("paralegal", { required_skills := ["legal_skills"], preferred_skills := ["soft_skills"], weights := [("skills", (0.5 : ℚ)), ("experience", (0.3 : ℚ)), ("education", (0.15 : ℚ)), ("certification", (0.05 : ℚ))], contextual_bonus := 55, minimum_threshold := 45 }),
  ("truck_driver", { required_skills := ["transportation_logistics"], preferred_skills := ["soft_skills"], weights := [("skills", (0.6 : ℚ)), ("experience", (0.25 : ℚ)), ("safety_record", (0.1 : ℚ)), ("reliability", (0.05 : ℚ))], contextual_bonus := 60, minimum_threshold := 40 }),
  ("pilot", { required_skills := ["transportation_logistics"], preferred_skills := ["soft_skills"], weights := [("skills", (0.5 : ℚ)), ("experience", (0.3 : ℚ)), ("education", (0.15 : ℚ)), ("certifications", (0.05 : ℚ))], contextual_bonus := 70, minimum_threshold := 65 }),
  ("farmer", { required_skills := ["agriculture_environment"], preferred_skills := ["soft_skills", "business_finance"], weights := [("skills", (0.55 : ℚ)), ("experience", (0.3 : ℚ)), ("education", (0.1 : ℚ)), ("sustainability", (0.05 : ℚ))], contextual_bonus := 60, minimum_threshold := 40 }),
  ("veterinarian", { required_skills := ["agriculture_environment", "healthcare_skills"], preferred_skills := ["soft_skills"], weights := [("skills", (0.5 : ℚ)), ("experience", (0.25 : ℚ)), ("education", (0.2 : ℚ)), ("certification", (0.05 : ℚ))], contextual_bonus := 65, minimum_threshold := 60 }),
  ("security_guard", { required_skills := ["security_safety"], preferred_skills := ["soft_skills"], weights := [("skills", (0.5 : ℚ)), ("experience", (0.3 : ℚ)), ("education", (0.1 : ℚ)), ("reliability", (0.1 : ℚ))], contextual_bonus := 55, minimum_threshold := 40 }),
  ("police_officer", { required_skills := ["security_safety"], preferred_skills := ["soft_skills"], weights := [("skills", (0.45 : ℚ)), ("experience", (0.3 : ℚ)), ("education", (0.15 : ℚ)), ("fitness", (0.1 : ℚ))], contextual_bonus := 65, minimum_threshold := 55 }),
  ("real_estate_agent", { required_skills := ["real_estate_construction", "sales_marketing"], preferred_skills := ["soft_skills"], weights := [("skills", (0.45 : ℚ)), ("experience", (0.3 : ℚ)), ("education", (0.15 : ℚ)), ("network", (0.1 : ℚ))], contextual_bonus := 60, minimum_threshold := 45 }),
  ("construction_worker", { required_skills := ["real_estate_construction"], preferred_skills := ["soft_skills"], weights := [("skills", (0.6 : ℚ)), ("experience", (0.25 : ℚ)), ("safety", (0.1 : ℚ)), ("reliability", (0.05 : ℚ))], contextual_bonus := 60, minimum_threshold := 35 }),
  ("hotel_manager", { required_skills := ["hospitality_tourism", "business_finance"], preferred_skills := ["soft_skills", "languages"], weights := [("skills", (0.45 : ℚ)), ("experience", (0.3 : ℚ)), ("education", (0.15 : ℚ)), ("guest_satisfaction", (0.1 : ℚ))], contextual_bonus := 60, minimum_threshold := 50 }),
  ("tour_guide", { required_skills := ["hospitality_tourism", "languages"], preferred_skills := ["soft_skills"], weights := [("skills", (0.5 : ℚ)), ("experience", (0.25 : ℚ)), ("knowledge", (0.15 : ℚ)), ("personality", (0.1 : ℚ))], contextual_bonus := 55, minimum_threshold := 40 }),
  ("personal_trainer", { required_skills := ["sports_recreation"], preferred_skills := ["soft_skills", "healthcare_skills"], weights := [("skills", (0.5 : ℚ)), ("experience", (0.25 : ℚ)), ("certification", (0.15 : ℚ)), ("results", (0.1 : ℚ))], contextual_bonus := 55, minimum_threshold := 45 }),
  ("sports_coach", { required_skills := ["sports_recreation"], preferred_skills := ["soft_skills", "education_skills"], weights := [("skills", (0.45 : ℚ)), ("experience", (0.35 : ℚ)), ("education", (0.1 : ℚ)), ("team_results", (0.1 : ℚ))], contextual_bonus := 60, minimum_threshold := 45 }),
  ("retail_manager", { required_skills := ["retail_customer_service", "business_finance"], preferred_skills := ["soft_skills"], weights := [("skills", (0.45 : ℚ)), ("experience", (0.3 : ℚ)), ("education", (0.15 : ℚ)), ("sales_results", (0.1 : ℚ))], contextual_bonus := 55, minimum_threshold := 45 }),
  ("cashier", { required_skills := ["retail_customer_service"], preferred_skills := ["soft_skills"], weights := [("skills", (0.5 : ℚ)), ("experience", (0.25 : ℚ)), ("reliability", (0.15 : ℚ)), ("accuracy", (0.1 : ℚ))], contextual_bonus := 50, minimum_threshold := 35 }),
  ("customer_service_representative", { required_skills := ["retail_customer_service"], preferred_skills := ["soft_skills", "languages"], weights := [("skills", (0.45 : ℚ)), ("experience", (0.3 : ℚ)), ("communication", (0.2 : ℚ)), ("problem_solving", (0.05 : ℚ))], contextual_bonus := 55, minimum_threshold := 40 }),
  ("hr_manager", { required_skills := ["human_resources", "soft_skills"], preferred_skills := ["business_finance", "legal_skills"], weights := [("skills", (0.45 : ℚ)), ("experience", (0.3 : ℚ)), ("education", (0.15 : ℚ)), ("certifications", (0.1 : ℚ))], contextual_bonus := 60, minimum_threshold := 50 }),
  ("recruiter", { required_skills := ["human_resources", "soft_skills"], preferred_skills := ["sales_marketing"], weights := [("skills", (0.4 : ℚ)), ("experience", (0.35 : ℚ)), ("network", (0.15 : ℚ)), ("results", (0.1 : ℚ))], contextual_bonus := 55, minimum_threshold := 45 }),
  ("market_research_analyst", { required_skills := ["market_research", "data_science"], preferred_skills := ["business_consulting", "soft_skills"], weights := [("skills", (0.4 : ℚ)), ("experience", (0.3 : ℚ)), ("education", (0.2 : ℚ)), ("domain_knowledge", (0.1 : ℚ))], contextual_bonus := 60, minimum_threshold := 50 }),
  ("business_consultant", { required_skills := ["business_consulting", "soft_skills"], preferred_skills := ["market_research", "business_finance"], weights := [("skills", (0.35 : ℚ)), ("experience", (0.35 : ℚ)), ("education", (0.15 : ℚ)), ("client_impact", (0.15 : ℚ))], contextual_bonus := 60, minimum_threshold := 55 }),
  ("management_consultant", { required_skills := ["business_consulting", "soft_skills"], preferred_skills := ["data_science", "business_finance"], weights := [("skills", (0.4 : ℚ)), ("experience", (0.3 : ℚ)), ("education", (0.2 : ℚ)), ("problem_solving", (0.1 : ℚ))], contextual_bonus := 65, minimum_threshold := 60 }),
  ("general", { required_skills := ["soft_skills"], preferred_skills := [], weights := [("skills", (0.3 : ℚ)), ("experience", (0.3 : ℚ)), ("education", (0.25 : ℚ)), ("potential", (0.15 : ℚ))], contextual_bonus := 40, minimum_threshold := 30 }),
  ("intern", { required_skills := ["soft_skills"], preferred_skills := [], weights := [("skills", (0.25 : ℚ)), ("experience", (0.2 : ℚ)), ("education", (0.35 : ℚ)), ("enthusiasm", (0.2 : ℚ))], contextual_bonus := 35, minimum_threshold := 25 }),
  ("entry_level", { required_skills := ["soft_skills"], preferred_skills := [], weights := [("skills", (0.35 : ℚ)), ("experience", (0.25 : ℚ)), ("education", (0.25 : ℚ)), ("trainability", (0.15 : ℚ))], contextual_bonus := 40, minimum_threshold := 30 })]

def job_role_keywords : List (String × List String) :=
[  ("chef", ["chef", "head chef", "executive chef", "sous chef", "culinary", "cooking", "kitchen", "restaurant"]),
  ("cook", ["cook", "line cook", "prep cook", "kitchen staff", "food preparation", "culinary assistant"]),
  ("nurse", ["nurse", "nursing", "rn", "lpn", "cna", "healthcare", "patient care", "medical"]),
  ("singer_performer", ["singer", "vocalist", "performer", "musician", "artist", "entertainer", "music"]),
  ("software_engineer", ["software engineer", "developer", "programmer", "coding", "programming"]),
  ("web_developer", ["web developer", "frontend", "backend", "full stack", "web development"]),
  ("data_scientist", ["data scientist", "machine learning", "ai", "analytics", "data analysis"]),
  ("data_analyst", ["data analyst", "business analyst", "analytics", "reporting"]),
  ("sales_representative", ["sales", "sales rep", "account manager", "business development"]),
  ("teacher", ["teacher", "educator", "instructor", "professor", "teaching"]),
  ("accountant", ["accountant", "accounting", "bookkeeper", "financial analyst"])]

def role_match_bonus : List (String × Nat) :=
[("perfect_match", 80), ("good_match", 60), ("partial_match", 40), ("no_match", 0)]

def passion_indicators : List (String × List String) :=
[  ("culinary", ["passion for cooking", "love of food", "culinary arts", "food enthusiast", "cooking hobby", "chef dream", "culinary passion"]),
  ("music", ["music passion", "performance passion", "love of music", "musical background", "singing passion", "stage passion"]),
  ("healthcare", ["patient care", "helping others", "medical interest", "healthcare passion", "caring for people", "health advocacy"]),
  ("technology", ["tech enthusiast", "coding passion", "technology lover", "programming hobby", "innovation passion", "tech geek"]),
  ("education", ["teaching passion", "love of learning", "educational enthusiasm", "mentoring passion", "knowledge sharing"]),
  ("finance", ["financial markets", "investment passion", "numbers enthusiast", "economic interest", "financial planning"]),
  ("sales", ["people person", "relationship building", "persuasion skills", "networking passion", "communication love"]),
  ("creative", ["artistic vision", "creative expression", "design passion", "visual storytelling", "artistic soul"]),
  ("sports", ["athletic passion", "fitness enthusiasm", "competitive spirit", "sports lover", "physical wellness"]),
  ("legal", ["justice passion", "legal interest", "advocacy spirit", "law enthusiasm", "rights defender"]),
  ("engineering", ["problem solving", "innovation drive", "technical curiosity", "building passion", "design thinking"]),
  ("business", ["entrepreneurial spirit", "business acumen", "leadership drive", "growth mindset", "strategic thinking"])]

def high_demand_roles : List String :=
["chef", "cook", "nurse", "teacher", "truck_driver", "construction_worker", "security_guard", "cashier", "customer_service_representative", "baker", "barista", "personal_trainer", "tutor"]

def desperation_bonus_points : Nat := 20

def high_impact_verbs : List String := ["led", "managed", "increased", "improved", "achieved", "delivered", "transformed"]
def team_leadership_indicators : List String := ["team of", "managed", "supervised", "led", "directed"]


/-! ### Skill matcher (`is_exact_skill_match` and context validation)

The analyzer's patterns are literal phrases wrapped in word boundaries `\b`,
optionally with negative lookaheads.  A `\b` between two positions holds when
exactly one neighbouring character is a word character.  To keep kernel
evaluation affordable the scanned text is preprocessed once into a list of
`(character, is-word-character)` pairs; the scan itself then only projects the
precomputed flag.  This changes nothing about which positions match. -/

/-- Scanned text: each character paired with its `isWordChar` flag. -/
abbrev WText := List (Char × Bool)

def wtext (t : Text) : WText := t.map (fun c => (c, isWordChar c))

/-- Word-character flag of the first scanned character (false at end of
text), i.e. the right-hand side of a `\b`. -/
def nextFlagW : WText → Bool
  | [] => false
  | cb :: _ => cb.2

/-- Literal `p` matches the text at the current position. -/
def listPrefixW : Text → WText → Bool
  | [], _ => true
  | _ :: _, [] => false
  | a :: as, b :: bs => a == b.1 && listPrefixW as bs

/-- A literal alternative of a pattern: the phrase, the precomputed
word-character status of its first and last characters (for the `\b`s), and
whether the alternative carries its own trailing `\b`. -/
structure AltPat where
  pat : Text
  firstW : Bool
  lastW : Bool
  trailB : Bool

def mkAlt (p : Text) (tb : Bool) : AltPat :=
  { pat := p,
    firstW := match p with | [] => false | c :: _ => isWordChar c,
    lastW := isWordChar (p.getLastD 'x'),
    trailB := tb }

/-- Alternative `a` matched at the current position: the literal is present,
the leading `\b` of the group holds (`prevW` is the word flag of the character
before the position, false at the start of text), and the alternative's
trailing `\b` (when it has one) holds after it. -/
def wbMatchAtW (a : AltPat) (prevW : Bool) (l : WText) : Bool :=
  (prevW != a.firstW) && listPrefixW a.pat l &&
    (!a.trailB || (a.lastW != nextFlagW (l.drop a.pat.length)))

/-- `re.search` for `\b(?:alt₁|alt₂|…)(?=lookahead)`: try every position,
at each position every alternative, and apply the lookahead `la` after the
matched alternative.  Match existence is order-independent, which is all
`bool(re.search(...))` observes. -/
def searchLAFromW (alts : List AltPat) (la : WText → Bool) : Bool → WText → Bool
  | _, [] => false
  | prevW, l@(cb :: t) =>
    (alts.any fun a => wbMatchAtW a prevW l && la (l.drop a.pat.length))
      || searchLAFromW alts la cb.2 t

/-- Trivial lookahead (pattern has none). -/
def laNone : WText → Bool := fun _ => true

/-- Negative lookahead `(?!c₁|c₂|…)` on single characters. -/
def laNotChars (cs : List Char) : WText → Bool
  | [] => true
  | cb :: _ => !(cs.contains cb.1)

/-- Negative lookahead `(?!\s*w₁|\s*w₂|…)` on literal words (each `wᵢ` starts
with a non-space character, so `\s*` must consume exactly the whitespace
run). -/
def laNotWords (ws : List String) : WText → Bool := fun l =>
  let r := l.dropWhile (fun cb => isSpaceChar cb.1)
  !(ws.any fun w => listPrefixW w.data r)

/-- Specialisation of `searchLAFromW` to a single alternative with no
lookahead, the shape of every non-problematic skill pattern `\bP\b`. -/
def searchOneW (a : AltPat) : Bool → WText → Bool
  | _, [] => false
  | prevW, l@(cb :: t) => wbMatchAtW a prevW l || searchOneW a cb.2 t

/-- `bool(re.search(\bP\b, text))` for a literal `P`. -/
def searchWB (p : Text) (wl : WText) : Bool :=
  searchOneW (mkAlt p true) false wl

/-- Search with the structure of the `problematic_skills` patterns. -/
def psearch (alts : List (String × Bool)) (la : WText → Bool) (wl : WText) : Bool :=
  searchLAFromW (alts.map fun ab => mkAlt ab.1.data ab.2) la false wl

/-- The generic branch of `is_exact_skill_match` for skills outside
`problematic_skills`.  The source distinguishes three cases (`/`, `+` or `.`
present; short all-alpha; everything else) whose patterns are all
`\bskill\b`, except that in the last case a skill containing a space also
gets the alternative `\bskillwithoutspaces\b`.  A spaced skill is never
short-all-alpha, so the alternative applies exactly to skills with a space
and none of `/`, `+`, `.`; the three branches collapse accordingly. -/
def is_exact_generic (skill : String) (wl : WText) : Bool :=
  let p := skill.data
  searchWB p wl ||
    (p.contains ' ' &&
      !(p.any (fun c => c == '/' || c == '+' || c == '.')) &&
      searchWB (p.filter (fun c => c != ' ')) wl)

/-- `is_exact_skill_match(skill, text)`: `skill` is already lowercased and
`wl` is the preprocessed lowercased text, so `re.IGNORECASE` is moot.  The ten
`problematic_skills` regexes are transcribed case by case; the generic branch
builds `\bskill\b` (plus, for spaced skills without `/`, `+`, `.`, the
alternative `\bskillwithoutspaces\b`). -/
def is_exact_skill_match (skill : String) (wl : WText) : Bool :=
  -- Every key of `problematic_skills` has at most two characters, so longer
  -- skills can skip the ten key comparisons entirely.
  if 2 < skill.data.length then is_exact_generic skill wl
  else if skill == "ca" then
    psearch [("ca", true), ("chartered accountant", false), ("chartered acc.", false)] laNone wl
  else if skill == "ai" then
    psearch [("ai", true), ("artificial intelligence", false)] laNone wl
  else if skill == "ml" then
    psearch [("ml", true), ("machine learning", false)] laNone wl
  else if skill == "ui" then
    psearch [("ui", true), ("user interface", false)] laNone wl
  else if skill == "ux" then
    psearch [("ux", true), ("user experience", false)] laNone wl
  else if skill == "r" then
    psearch [("r", true), ("r programming", false), ("r language", false), ("r statistical", false)] laNone wl
  else if skill == "c" then
    psearch [("c", true), ("c programming", false), ("c language", false)]
      (laNotChars ['+', '#', 's']) wl
  else if skill == "go" then
    psearch [("go", true), ("golang", false), ("go programming", false)]
      (laNotWords ["to", "for", "with"]) wl
  else if skill == "it" then
    psearch [("it", true), ("information technology", false)]
      (laNotWords ["is", "was", "will"]) wl
  else if skill == "hr" then
    psearch [("hr", true), ("human resources", false)]
      (laNotWords ["department", "team"]) wl
  else is_exact_generic skill wl

/-- `context_rules` of `validate_skills_in_context`:
skill ↦ (positive_context, negative_context). -/
def context_rules : List (String × (List String × List String)) :=
[ ("ca", (["chartered accountant", "ca final", "ca inter", "icai", "institute of chartered accountants", "accounting", "finance"],
          ["education", "application", "statistical", "medical", "chemical", "practical", "theoretical", "mathematics"])),
  ("ai", (["artificial intelligence", "machine learning", "deep learning", "neural networks", "ai/ml"],
          ["available", "again", "said", "wait", "main", "certain"])),
  ("go", (["golang", "go programming", "go language", "google go", "programming"],
          ["go to", "go for", "go with", "let go", "going", "go back", "go through"])),
  ("r", (["r programming", "r language", "r statistical", "rstudio", "cran", "programming"],
         ["for", "or", "are", "our", "more", "other", "their", "your", "over"])),
  ("it", (["information technology", "it support", "it department", "it services"],
          ["it is", "it was", "it will", "it can", "it has", "it would"])) ]

def skill_indicator_words : List String :=
[ "programming", "language", "skill", "experience", "proficient",
  "knowledge", "familiar", "expert", "certification", "course",
  "training", "project", "development", "technology", "software",
  "tools", "frameworks", "languages", "technical", "professional" ]

def isListMark (c : Char) : Bool := c == ',' || c == '•' || c == '-' || c == '*'

def isListMark2 (c : Char) : Bool := isListMark c || c == '\n'

/-- `\s*[,•\-\*\n]` after the skill: some whitespace then a closing list mark
(`\n` is both, so the first closing character wins existentially). -/
def tailClassOK : Text → Bool
  | [] => false
  | c :: t => isListMark2 c || (isSpaceChar c && tailClassOK t)

/-- One attempt of `[,•\-\*]\s*skill\s*[,•\-\*\n]` at the head of `l`. -/
def listFormatAt (p : Text) (l : Text) : Bool :=
  match l with
  | [] => false
  | c :: t =>
    isListMark c &&
    (let r := t.dropWhile isSpaceChar
     listPrefix p r && tailClassOK (r.drop p.length))

/-- `re.search` of the bullet-list pattern anywhere in `l`. -/
def listFormatSearch (p : Text) : Text → Bool
  | [] => false
  | l@(_ :: t) => listFormatAt p l || listFormatSearch p t

/-- The ±30-character window around a match starting at index `i`
(`text[max(0, start-30) : min(len(text), end+30)]`). -/
def contextWindow (tl : Text) (i : ℕ) (plen : ℕ) : Text :=
  let s := i - 30
  let e := min tl.length (i + plen + 30)
  (tl.drop s).take (e - s)

/-- `is_in_skill_context`: iterate over every `\bskill\b` occurrence and test
its context window for an indicator word or a bullet-list pattern. -/
def inSkillContextFrom (a : AltPat) (tl : Text) : Bool → ℕ → WText → Bool
  | _, _, [] => false
  | prevW, i, l@(cb :: t) =>
    (wbMatchAtW a prevW l &&
      (let ctx := contextWindow tl i a.pat.length
       skill_indicator_words.any (fun w => containsStr w ctx) ||
         listFormatSearch a.pat ctx))
      || inSkillContextFrom a tl cb.2 (i + 1) t

def is_in_skill_context (skill : String) (tl : Text) : Bool :=
  inSkillContextFrom (mkAlt skill.data true) tl false 0 (wtext tl)

/-- `validate_individual_skill(skill, text, context_rules)`. -/
def validate_individual_skill (skill : String) (tl : Text) : Bool :=
  match alookup context_rules skill with
  | none => true
  | some rule =>
    if rule.1.any (fun c => containsStr c tl) then true
    else if rule.2.any (fun c => containsStr c tl) then false
    else is_in_skill_context skill tl

/-! ### `extract_skills_with_context` -/

/-- Skill maps have the nested `category → subcategory → skills` shape (see
header: every category of the embedded `skills_db` is a dict). -/
abbrev SkillsMap := List (String × List (String × List String))

/-- The inner loop of `extract_skills_with_context` over one subcategory's
skill list; `found` is the global `found_skill_texts` accumulator. -/
def matchSkills : List String → WText → List String → List String × List String
  | [], _, found => ([], found)
  | s :: rest, wl, found =>
    let sl := lowerString s
    if found.contains sl then matchSkills rest wl found
    else if is_exact_skill_match sl wl then
      let r := matchSkills rest wl (found ++ [sl])
      (s :: r.1, r.2)
    else matchSkills rest wl found

/-- The loop over a category's subcategories (empty subcategories omitted). -/
def matchSubcats : List (String × List String) → WText → List String →
    List (String × List String) × List String
  | [], _, found => ([], found)
  | (sub, skills) :: rest, wl, found =>
    let r1 := matchSkills skills wl found
    let r2 := matchSubcats rest wl r1.2
    (if r1.1.isEmpty then r2.1 else (sub, r1.1) :: r2.1, r2.2)

/-- The loop over the whole taxonomy (empty categories omitted). -/
def matchCats : List (String × List (String × List String)) → WText → List String →
    SkillsMap × List String
  | [], _, found => ([], found)
  | (cat, subs) :: rest, wl, found =>
    let r1 := matchSubcats subs wl found
    let r2 := matchCats rest wl r1.2
    (if r1.1.isEmpty then r2.1 else (cat, r1.1) :: r2.1, r2.2)

/-- `validate_skills_in_context`: keep only skills passing context validation,
dropping subcategories and categories that become empty. -/
def validateSubcats (tl : Text) : List (String × List String) → List (String × List String)
  | [] => []
  | (sub, skills) :: rest =>
    let v := skills.filter (fun s => validate_individual_skill (lowerString s) tl)
    if v.isEmpty then validateSubcats tl rest else (sub, v) :: validateSubcats tl rest

def validate_skills_in_context (m : SkillsMap) (tl : Text) : SkillsMap :=
  match m with
  | [] => []
  | (cat, subs) :: rest =>
    let v := validateSubcats tl subs
    if v.isEmpty then validate_skills_in_context rest tl
    else (cat, v) :: validate_skills_in_context rest tl

/-- `extract_skills_with_context(text)`. -/
def extract_skills_with_context (text : String) : SkillsMap :=
  let tl := lowerText text.data
  validate_skills_in_context (matchCats skills_db (wtext tl) []).1 tl



/-- `count_total_skills`. -/
def count_total_skills (m : SkillsMap) : ℕ :=
  m.foldl (fun a p => p.2.foldl (fun b q => b + q.2.length) a) 0

/-! ### Experience extractor (`extract_experience_with_quality`)

`re.findall` is modelled by a fuel-driven scanner: at each position try the
pattern; on a match, emit its captures and resume after the match (leftmost,
non-overlapping), otherwise advance one character.  Fuel `= length of the
text` always suffices because every pattern consumes at least one character.
The greedy/backtracking behaviour of each pattern is resolved statically in
the comments of the per-pattern matchers. -/

/-- Generic `findall` driver emitting `ℕ` captures. -/
def scanNats (m : Text → Option (List ℕ × Text)) : ℕ → Text → List ℕ
  | 0, _ => []
  | _, [] => []
  | fuel + 1, l@(_ :: t) =>
    match m l with
    | some (ns, rest) => ns ++ scanNats m fuel rest
    | none => scanNats m fuel t

/-- `(?:years?|yrs?)`: longest alternative first; a shorter alternative can
never rescue a failing continuation because the leftover `s` can start
neither whitespace nor `of`/`experience`/`exp`. -/
def yearsTok (l : Text) : Option Text :=
  if listPrefix "years".data l then some (l.drop 5)
  else if listPrefix "year".data l then some (l.drop 4)
  else if listPrefix "yrs".data l then some (l.drop 3)
  else if listPrefix "yr".data l then some (l.drop 2)
  else none

/-- `(?:experience|exp)` (longest first). -/
def expTok (l : Text) : Option Text :=
  if listPrefix "experience".data l then some (l.drop 10)
  else if listPrefix "exp".data l then some (l.drop 3)
  else none

/-- `(?:of\s*)?` before `(?:experience|exp)`: consuming `of` when present is
deterministic, since `experience`/`exp` cannot start with `of`. -/
def skipOf (l : Text) : Text :=
  if listPrefix "of".data l then (l.drop 2).dropWhile isSpaceChar else l

/-- `(?:professional\s*)?` before `(?:experience|exp)`, same reasoning. -/
def skipProfessional (l : Text) : Text :=
  if listPrefix "professional".data l then (l.drop 12).dropWhile isSpaceChar else l

/-- `(\d+)\+?\s*(?:years?|yrs?)\s*(?:of\s*)?(?:experience|exp)` at the head of
`l`.  The digit run is maximal (a digit cannot continue the pattern) and the
optional `+` is deterministic. -/
def expPat1At (l : Text) : Option (List ℕ × Text) :=
  let d := l.takeWhile Char.isDigit
  if d.isEmpty then none else
  let r1 := l.drop d.length
  let r2 := match r1 with | '+' :: t => t | _ => r1
  match yearsTok (r2.dropWhile isSpaceChar) with
  | none => none
  | some r3 =>
    match expTok (skipOf (r3.dropWhile isSpaceChar)) with
    | none => none
    | some r4 => some ([natOfDigits d], r4)

/-- `(\d+)-(\d+)\s*(?:years?|yrs?)` at the head of `l`; both captured groups
are digit strings, so `[int(x) for x in match if x.isdigit()]` yields both. -/
def expPat2At (l : Text) : Option (List ℕ × Text) :=
  let d1 := l.takeWhile Char.isDigit
  if d1.isEmpty then none else
  match l.drop d1.length with
  | '-' :: r1 =>
    let d2 := r1.takeWhile Char.isDigit
    if d2.isEmpty then none else
    match yearsTok ((r1.drop d2.length).dropWhile isSpaceChar) with
    | none => none
    | some r2 => some ([natOfDigits d1, natOfDigits d2], r2)
  | _ => none

/-- `over\s*(\d+)\s*(?:years?|yrs?)` at the head of `l` (no word boundary on
`over`, as in the source pattern). -/
def expPat3At (l : Text) : Option (List ℕ × Text) :=
  if listPrefix "over".data l then
    let r1 := (l.drop 4).dropWhile isSpaceChar
    let d := r1.takeWhile Char.isDigit
    if d.isEmpty then none else
    match yearsTok ((r1.drop d.length).dropWhile isSpaceChar) with
    | none => none
    | some r2 => some ([natOfDigits d], r2)
  else none

/-- `(\d+)\s*(?:years?|yrs?)\s*(?:of\s*)?(?:professional\s*)?(?:experience|exp)`. -/
def expPat4At (l : Text) : Option (List ℕ × Text) :=
  let d := l.takeWhile Char.isDigit
  if d.isEmpty then none else
  match yearsTok ((l.drop d.length).dropWhile isSpaceChar) with
  | none => none
  | some r1 =>
    match expTok (skipProfessional (skipOf (r1.dropWhile isSpaceChar))) with
    | none => none
    | some r2 => some ([natOfDigits d], r2)

/-- The four `experience_patterns` of `extract_experience_with_quality`, run
in order over the lowercased text, concatenating all captured integers. -/
def years_foundOf (text : String) : List ℕ :=
  let tl := lowerText text.data
  scanNats expPat1At tl.length tl ++ scanNats expPat2At tl.length tl ++
    scanNats expPat3At tl.length tl ++ scanNats expPat4At tl.length tl

/-- `max(years_found) if years_found else 0`. -/
def maxListD (l : List ℕ) : ℕ := l.foldr max 0

/-- Presence of `\d+%`: some digit immediately followed by `%`. -/
def hasDigitPct : Text → Bool
  | [] => false
  | a :: rest => (a.isDigit && rest.headD ' ' == '%') || hasDigitPct rest

/-- Presence of `\$\d+`: a `$` immediately followed by a digit. -/
def hasDollarNum : Text → Bool
  | [] => false
  | a :: rest => (a == '$' && (rest.headD ' ').isDigit) || hasDollarNum rest

/-- Presence of `\d+k`: some digit immediately followed by `k`. -/
def hasDigitK : Text → Bool
  | [] => false
  | a :: rest => (a.isDigit && rest.headD ' ' == 'k') || hasDigitK rest

/-- Presence of `\d+\s*w`: some digit whose following whitespace run is
followed by the literal `w` (the digit may be the last of its run). -/
def hasNumThenWord (w : String) : Text → Bool
  | [] => false
  | c :: t =>
    (c.isDigit && listPrefix w.data (t.dropWhile isSpaceChar)) || hasNumThenWord w t

/-- The five `quantified_results` regexes of
`experience_quality_indicators`, each as a presence test. -/
def quantifiedResultCount (tl : Text) : ℕ :=
  [hasDigitPct tl, hasDollarNum tl, hasNumThenWord "million" tl, hasDigitK tl,
   hasNumThenWord "years" tl].countP (fun b => b)

/-- `assess_experience_quality`. -/
def assess_experience_quality (text : String) : ℚ :=
  let tl := lowerText text.data
  let quality : ℚ := 50
  let quality := quality + min ((high_impact_verbs.countP (fun v => containsStr v tl)) * 5 : ℚ) 20
  let quality := quality + min ((quantifiedResultCount tl) * 3 : ℚ) 15
  let quality := quality + min ((team_leadership_indicators.countP (fun v => containsStr v tl)) * 4 : ℚ) 15
  min quality 100

/-- `ExperienceProfile` (the display-only `companies` and
`quality_indicators` fields are omitted, see header). -/
structure ExperienceProfile where
  years_experience : List ℕ
  max_years : ℕ
  quality_score : ℚ
deriving DecidableEq

/-- `extract_experience_with_quality`. -/
def extract_experience_with_quality (text : String) : ExperienceProfile :=
  { years_experience := years_foundOf text,
    max_years := maxListD (years_foundOf text),
    quality_score := assess_experience_quality text }

/-! ### Education extractor (`extract_education_with_context`) -/

/-- `findall` driver for word alternatives `\b(a₁|a₂|…)\b`: at each position
the first alternative that matches (with both boundaries) is captured and the
scan resumes after it. -/
def scanWordAlts (alts : List AltPat) : ℕ → Bool → WText → List String
  | 0, _, _ => []
  | _, _, [] => []
  | fuel + 1, prevW, l@(cb :: t) =>
    match alts.find? (fun a => wbMatchAtW a prevW l) with
    | some a =>
      String.mk a.pat ::
        scanWordAlts alts fuel a.lastW (l.drop a.pat.length)
    | none => scanWordAlts alts fuel cb.2 t

def mkWordAlts (ws : List String) : List AltPat := ws.map (fun w => mkAlt w.data true)

/-- `\b(bachelor|master|phd|doctorate|diploma|certificate)\b`. -/
def degreeAlts1 : List AltPat :=
  mkWordAlts ["bachelor", "master", "phd", "doctorate", "diploma", "certificate"]

/-- `\b(b\.?tech|m\.?tech|b\.?sc|m\.?sc|mba|bba|b\.?com|m\.?com|be|me)\b`,
with each optional dot expanded greedily (dotted variant first). -/
def degreeAlts2 : List AltPat :=
  mkWordAlts ["b.tech", "btech", "m.tech", "mtech", "b.sc", "bsc", "m.sc", "msc",
              "mba", "bba", "b.com", "bcom", "m.com", "mcom", "be", "me"]

/-- `\b(engineering|computer science|information technology|statistics|mathematics|business administration)\b`. -/
def degreeAlts3 : List AltPat :=
  mkWordAlts ["engineering", "computer science", "information technology",
              "statistics", "mathematics", "business administration"]

/-- First-seen-order deduplication, modelling `list(set(...))` (the Python
set's iteration order is unspecified; every use of `degrees` downstream —
emptiness tests and maximum folds — is order-insensitive). -/
def dedupFirstAux (seen : List String) : List String → List String
  | [] => []
  | x :: t => if seen.contains x then dedupFirstAux seen t else x :: dedupFirstAux (x :: seen) t

def dedupFirst (l : List String) : List String := dedupFirstAux [] l

/-- `gpa[:\s]*(\d+\.?\d*)` (and the `cgpa`/`grade` variants): the label is a
plain substring (no word boundary), the separators `[:\s]*` must be consumed
entirely because a digit has to follow, and the capture is
`digits (. digits*)?` converted exactly. -/
def gpaScanAt (label : String) (l : Text) : Option (List ℚ × Text) :=
  if listPrefix label.data l then
    let r := (l.drop label.data.length).dropWhile (fun c => c == ':' || isSpaceChar c)
    let d := r.takeWhile Char.isDigit
    if d.isEmpty then none else
    match r.drop d.length with
    | '.' :: r2 =>
      let f := r2.takeWhile Char.isDigit
      some ([(natOfDigits d : ℚ) + (natOfDigits f : ℚ) / (10 ^ f.length : ℚ)], r2.drop f.length)
    | r2 => some ([(natOfDigits d : ℚ)], r2)
  else none

/-- `findall` driver emitting `ℚ` captures. -/
def scanRats (m : Text → Option (List ℚ × Text)) : ℕ → Text → List ℚ
  | 0, _ => []
  | _, [] => []
  | fuel + 1, l@(_ :: t) =>
    match m l with
    | some (qs, rest) => qs ++ scanRats m fuel rest
    | none => scanRats m fuel t

def gpa_scoresOf (text : String) : List ℚ :=
  let tl := lowerText text.data
  scanRats (gpaScanAt "gpa") tl.length tl ++ scanRats (gpaScanAt "cgpa") tl.length tl ++
    scanRats (gpaScanAt "grade") tl.length tl

/-- `max(gpa_scores) if gpa_scores else None`. -/
def maxQList : List ℚ → Option ℚ
  | [] => none
  | x :: t => some (t.foldl max x)

def prestigious_keywords : List String :=
  ["mit", "stanford", "harvard", "cambridge", "oxford", "iit", "nit"]

def academic_achievement_keywords : List String :=
  ["magna cum laude", "summa cum laude", "dean\x27s list", "scholarship", "honors"]

/-- `assess_education_quality`. -/
def assess_education_quality (text : String) : ℚ :=
  let tl := lowerText text.data
  let quality : ℚ := 50
  let quality := quality + (if prestigious_keywords.any (fun k => containsStr k tl) then 20 else 0)
  let quality := quality + min ((academic_achievement_keywords.countP (fun k => containsStr k tl)) * 5 : ℚ) 15
  min quality 100

structure EducationProfile where
  degrees : List String
  gpa_scores : List ℚ
  highest_gpa : Option ℚ
  education_quality : ℚ
deriving DecidableEq

/-- `extract_education_with_context`. -/
def extract_education_with_context (text : String) : EducationProfile :=
  let tl := lowerText text.data
  let wl := wtext tl
  let degrees := scanWordAlts degreeAlts1 tl.length false wl ++
    scanWordAlts degreeAlts2 tl.length false wl ++
    scanWordAlts degreeAlts3 tl.length false wl
  { degrees := dedupFirst degrees,
    gpa_scores := gpa_scoresOf text,
    highest_gpa := maxQList (gpa_scoresOf text),
    education_quality := assess_education_quality text }

/-! ### Achievement extractor (`extract_quantified_achievements`) -/

structure Achievement where
  statement : String
  /-- the `type` field of the source's achievement dict -/
  achievement_type : String
  impact_level : String
deriving DecidableEq

def achievement_verbs : List String :=
  ["increased", "improved", "reduced", "achieved", "delivered"]

/-- Index (counting from the head of `body`) of a digit usable as the start of
`\d+` after the greedy `[^.]{0,100}`: the largest `d ≤ min 100 (non-dot
prefix)` whose character is a digit. -/
def lastDigitStart (body : Text) (a : ℕ) : Option ℕ :=
  ((List.range (a + 1)).filter (fun d =>
    match body.get? d with
    | some c => c.isDigit
    | none => false)).max?

/-- `verb[^.]{0,100}\d+[^.]{0,50}` at the head of `l`: greedy `[^.]{0,100}`
picks the rightmost reachable digit, `\d+` then consumes the full digit run
and `[^.]{0,50}` is greedy again.  Returns the matched string and the rest of
the text after it. -/
def achMatchAt (verb : String) (l : Text) : Option (Text × Text) :=
  if listPrefix verb.data l then
    let body := l.drop verb.data.length
    let a := min 100 (body.takeWhile (fun c => c != '.')).length
    match lastDigitStart body a with
    | none => none
    | some d =>
      let digits := (body.drop d).takeWhile Char.isDigit
      let afterD := body.drop (d + digits.length)
      let f := min 50 (afterD.takeWhile (fun c => c != '.')).length
      some (verb.data ++ body.take (d + digits.length + f), afterD.drop f)
  else none

/-- `findall` driver for the achievement patterns (match strings). -/
def scanAch (verb : String) : ℕ → Text → List Text
  | 0, _ => []
  | _, [] => []
  | fuel + 1, l@(_ :: t) =>
    match achMatchAt verb l with
    | some (m, rest) => m :: scanAch verb fuel rest
    | none => scanAch verb fuel t

/-- `categorize_achievement` (the match is already lowercase, so its
`.lower()` is a no-op). -/
def categorize_achievement (a : Text) : String :=
  if ["revenue", "profit", "sales"].any (fun w => containsStr w a) then "financial"
  else if ["efficiency", "process", "productivity"].any (fun w => containsStr w a) then "operational"
  else if ["customer", "client", "user"].any (fun w => containsStr w a) then "customer_focused"
  else "general"

/-- `re.findall(r'(\d+)%', achievement)`: every maximal digit run immediately
followed by `%` (a run not followed by `%` cannot contain a later match
start, so the scan resumes after it). -/
def findPcts : ℕ → Text → List ℕ
  | 0, _ => []
  | _, [] => []
  | fuel + 1, l@(c :: t) =>
    if c.isDigit then
      let d := l.takeWhile Char.isDigit
      match l.drop d.length with
      | '%' :: r2 => natOfDigits d :: findPcts fuel r2
      | r2 => findPcts fuel r2
    else findPcts fuel t

/-- `assess_impact_level`: when percentages are present the dollar test is
never reached (every branch of the percentage case returns). -/
def assess_impact_level (a : Text) : String :=
  match findPcts a.length a with
  | [] => if hasDollarNum a then "high" else "medium"
  | p :: ps =>
    let m := (p :: ps).foldr max 0
    if 50 ≤ m then "high" else if 20 ≤ m then "medium" else "low"

/-- `extract_quantified_achievements`: the five verb patterns in order, each
scanned over the whole lowercased text; `statement` is the stripped match. -/
def extract_quantified_achievements (text : String) : List Achievement :=
  let tl := lowerText text.data
  achievement_verbs.flatMap (fun v =>
    (scanAch v tl.length tl).map (fun m =>
      { statement := String.mk (stripText m),
        achievement_type := categorize_achievement m,
        impact_level := assess_impact_level m }))


/-! ### Job requirement extraction -/

/-- Per-role keyword scores of `identify_job_role_with_confidence`: roles in
table order whose keyword count in the lowercased text is positive, paired
with `min(score / len(keywords), 1.0)`. -/
def roleScores (jd : String) : List (String × ℚ) :=
  let tl := lowerText jd.data
  job_role_keywords.filterMap (fun rk =>
    let s := rk.2.countP (fun k => containsStr k tl)
    if s = 0 then none else some (rk.1, min ((s : ℚ) / (rk.2.length : ℚ)) 1))

/-- Python's `max(role_scores, key=role_scores.get)`: keep the current best,
replace only on a strictly greater value (so ties keep the earlier key). -/
def pickBest : (String × ℚ) → List (String × ℚ) → (String × ℚ)
  | b, [] => b
  | b, q :: t => pickBest (if b.2 < q.2 then q else b) t

/-- `identify_job_role_with_confidence`. -/
def identify_job_role_with_confidence (jd : String) : String × ℚ :=
  if jd == "" then ("general", 0)
  else
    match roleScores jd with
    | [] => ("general", 0)
    | p :: rest => pickBest p rest

/-- `extract_required_skills_from_job`: categories required by the role first
(those present among the job's extracted skills), then the remaining
extracted categories in extraction order. -/
def extract_required_skills_from_job (jd : String) (job_role : String) : SkillsMap :=
  let job_skills := extract_skills_with_context jd
  let reqCats := ((alookup industry_role_weights job_role).map (fun c => c.required_skills)).getD []
  let prioritized := reqCats.filterMap (fun c => (alookup job_skills c).map (fun s => (c, s)))
  prioritized ++ job_skills.filter (fun p => !(prioritized.any (fun q => q.1 == p.1)))

/-- `minimum\s*(\d+)\s*(?:years?|yrs?)`. -/
def jobExpPatMinAt (l : Text) : Option (List ℕ × Text) :=
  if listPrefix "minimum".data l then
    let r1 := (l.drop 7).dropWhile isSpaceChar
    let d := r1.takeWhile Char.isDigit
    if d.isEmpty then none else
    match yearsTok ((r1.drop d.length).dropWhile isSpaceChar) with
    | none => none
    | some r2 => some ([natOfDigits d], r2)
  else none

/-- `at\s*least\s*(\d+)\s*(?:years?|yrs?)`. -/
def jobExpPatLeastAt (l : Text) : Option (List ℕ × Text) :=
  if listPrefix "at".data l then
    let r1 := (l.drop 2).dropWhile isSpaceChar
    if listPrefix "least".data r1 then
      let r2 := (r1.drop 5).dropWhile isSpaceChar
      let d := r2.takeWhile Char.isDigit
      if d.isEmpty then none else
      match yearsTok ((r2.drop d.length).dropWhile isSpaceChar) with
      | none => none
      | some r3 => some ([natOfDigits d], r3)
    else none
  else none

/-- The year requirements found by `extract_experience_requirements_from_job`
(its first pattern is the same as the resume extractor's first pattern). -/
def jobYearsFound (jd : String) : List ℕ :=
  let tl := lowerText jd.data
  scanNats expPat1At tl.length tl ++ scanNats jobExpPatMinAt tl.length tl ++
    scanNats jobExpPatLeastAt tl.length tl

/-- `min(years_found) if years_found else 0`. -/
def minListD : List ℕ → ℕ
  | [] => 0
  | x :: t => t.foldl min x

def education_keywords : List String :=
  ["bachelor", "master", "phd", "doctorate", "degree", "b.tech", "m.tech", "mba", "bba"]

def stop_words : List String :=
  ["the", "a", "an", "and", "or", "but", "in", "on", "at", "to", "for", "of", "with", "by"]

/-- Whitespace splitting of `str.split()`. -/
def splitWsAux : ℕ → Text → List Text
  | 0, _ => []
  | _, [] => []
  | fuel + 1, l =>
    let l1 := l.dropWhile isSpaceChar
    match l1 with
    | [] => []
    | _ =>
      let w := l1.takeWhile (fun c => !isSpaceChar c)
      w :: splitWsAux fuel (l1.drop w.length)

/-- Word frequencies in first-seen order (`collections.Counter` preserves
insertion order). -/
def countsInOrder (ws : List String) : List (String × ℕ) :=
  ws.foldl (fun acc w =>
    if acc.any (fun p => p.1 == w) then
      acc.map (fun p => if p.1 == w then (p.1, p.2 + 1) else p)
    else acc ++ [(w, 1)]) []

/-- Stable insertion keeping elements with a count `≥` the new one in front —
together with `stableSortDesc` this models `Counter.most_common`, which is
documented as a stable descending sort by count. -/
def insDesc (x : String × ℕ) : List (String × ℕ) → List (String × ℕ)
  | [] => [x]
  | y :: t => if y.2 < x.2 then x :: y :: t else y :: insDesc x t

def stableSortDesc (l : List (String × ℕ)) : List (String × ℕ) :=
  l.foldl (fun acc x => insDesc x acc) []

/-- `extract_job_keywords`: strip non-word non-space characters to spaces,
split, drop short and stop words, take the 15 most frequent. -/
def extract_job_keywords (jd : String) : List String :=
  if jd == "" then []
  else
    let cleaned := (lowerText jd.data).map (fun c => if isWordChar c || isSpaceChar c then c else ' ')
    let words := (splitWsAux (cleaned.length + 1) cleaned).map String.mk
    let meaningful := words.filter (fun w => 2 < w.data.length && !(stop_words.contains w))
    ((stableSortDesc (countsInOrder meaningful)).take 15).map (fun p => p.1)

/-- `JobRequirements`: the nested `experience_requirements` and
`education_requirements` dicts are flattened into fields. -/
structure JobRequirements where
  job_role : String
  role_confidence : ℚ
  required_skills : SkillsMap
  min_years : ℕ
  preferred_years : ℕ
  required_degrees : List String
  degree_required : Bool
  keywords : List String
deriving DecidableEq

/-- `extract_comprehensive_job_requirements` (callers guard on a non-blank
job description; the all-fields dict it returns is never falsy). -/
def extract_comprehensive_job_requirements (jd : String) : JobRequirements :=
  let rc := identify_job_role_with_confidence jd
  let tl := lowerText jd.data
  let reqEd := education_keywords.filter (fun k => containsStr k tl)
  { job_role := rc.1,
    role_confidence := rc.2,
    required_skills := extract_required_skills_from_job jd rc.1,
    min_years := minListD (jobYearsFound jd),
    preferred_years := maxListD (jobYearsFound jd),
    required_degrees := reqEd,
    degree_required := !reqEd.isEmpty,
    keywords := extract_job_keywords jd }

/-! ### Role / fit scorer (`calculate_job_fit_score`) -/

structure ResumeAnalysis where
  skills : SkillsMap
  experience : ExperienceProfile
  education : EducationProfile
  achievements : List Achievement
deriving DecidableEq

/-- `resume_analysis` as assembled at the top of `calculate_resume_score`. -/
def resume_analysisOf (rt : String) : ResumeAnalysis :=
  { skills := extract_skills_with_context rt,
    experience := extract_experience_with_quality rt,
    education := extract_education_with_context rt,
    achievements := extract_quantified_achievements rt }

/-- `calculate_skills_match`: over each required subcategory count the
required skills with a case-insensitive substring match among the resume's
skills of the same category/subcategory. -/
def calculate_skills_match (ra : ResumeAnalysis) (jr : JobRequirements) : ℚ :=
  if jr.required_skills.isEmpty then 50
  else
    let counts := jr.required_skills.foldl (fun (acc : ℕ × ℕ) cp =>
      cp.2.foldl (fun (acc2 : ℕ × ℕ) sp =>
        let matched :=
          match alookup ra.skills cp.1 with
          | none => 0
          | some rsubs =>
            match alookup rsubs sp.1 with
            | none => 0
            | some rl =>
              sp.2.countP (fun sk =>
                rl.any (fun r => containsSub (lowerString sk).data (lowerString r).data))
        (acc2.1 + sp.2.length, acc2.2 + matched)) acc) (0, 0)
    if 0 < counts.1 then (counts.2 : ℚ) / (counts.1 : ℚ) * 100 else 0

/-- `calculate_experience_fit`. -/
def calculate_experience_fit (ra : ResumeAnalysis) (jr : JobRequirements) : ℚ :=
  let cy := ra.experience.max_years
  let ry := jr.min_years
  if ry = 0 then 75
  else if ry ≤ cy then min 100 (75 + min (((cy - ry) : ℚ) * 5) 25)
  else max 0 (75 - ((ry - cy : ℕ) : ℚ) * 10)

def degree_hierarchy_levels : List (String × ℕ) :=
  [("certificate", 1), ("diploma", 2), ("bachelor", 3), ("master", 4), ("phd", 5)]

/-- `max(level over hierarchy entries contained in some degree string)`,
starting from 0 — the nested update loop of `calculate_education_fit`. -/
def degreeLevel (degrees : List String) : ℕ :=
  degrees.foldl (fun a d =>
    degree_hierarchy_levels.foldl (fun a2 lv =>
      if containsStr lv.1 (lowerText d.data) then max a2 lv.2 else a2) a) 0

/-- `calculate_education_fit`. -/
def calculate_education_fit (ra : ResumeAnalysis) (jr : JobRequirements) : ℚ :=
  if !jr.degree_required then 75
  else if ra.education.degrees.isEmpty then 20
  else
    let cl := degreeLevel ra.education.degrees
    let rl := degreeLevel jr.required_degrees
    if rl ≤ cl then 100 else if cl + 1 = rl then 80 else 50

/-- The string `" ".join`-style concatenation of all resume skill strings
built by `calculate_keyword_match` (a leading space per subcategory). -/
def resumeSkillsText (m : SkillsMap) : Text :=
  m.foldl (fun acc p =>
    p.2.foldl (fun acc2 q =>
      acc2 ++ ' ' :: (String.intercalate " " q.2).data) acc) []

/-- `calculate_keyword_match`. -/
def calculate_keyword_match (ra : ResumeAnalysis) (jr : JobRequirements) : ℚ :=
  if jr.keywords.isEmpty then 50
  else
    let rtl := lowerText (resumeSkillsText ra.skills)
    ((jr.keywords.countP (fun k => containsStr k rtl)) : ℚ) / (jr.keywords.length : ℚ) * 100

structure FitScores where
  overall_fit : ℚ
  skills_match : ℚ
  experience_fit : ℚ
  education_fit : ℚ
  keyword_match : ℚ
deriving DecidableEq

/-- `calculate_job_fit_score`; `none` models the falsy empty
`job_requirements` dict of the guard. -/
def calculate_job_fit_score (ra : ResumeAnalysis) : Option JobRequirements → FitScores
  | none =>
    { overall_fit := 50, skills_match := 50, experience_fit := 50,
      education_fit := 50, keyword_match := 50 }
  | some jr =>
    let sm := calculate_skills_match ra jr
    let ef := calculate_experience_fit ra jr
    let edf := calculate_education_fit ra jr
    let km := calculate_keyword_match ra jr
    let overall :=
      match alookup industry_role_weights jr.job_role with
      | some cfg =>
        if cfg.weights.isEmpty then sm * 0.4 + ef * 0.3 + edf * 0.2 + km * 0.1
        else
          sm * ((alookup cfg.weights "skills").getD 0.4) +
            ef * ((alookup cfg.weights "experience").getD 0.3) +
            edf * ((alookup cfg.weights "education").getD 0.2) + km * 0.1
      | none => sm * 0.4 + ef * 0.3 + edf * 0.2 + km * 0.1
    { overall_fit := roundQ2 overall, skills_match := roundQ2 sm,
      experience_fit := roundQ2 ef, education_fit := roundQ2 edf,
      keyword_match := roundQ2 km }

/-! ### Individual scores -/

/-- Total skills of the categories outside `required` (the irrelevant-skill
count of `calculate_skills_score`). -/
def irrelevantCount (m : SkillsMap) (required : List String) : ℕ :=
  (m.filter (fun p => !(required.contains p.1))).foldl
    (fun a p => p.2.foldl (fun b q => b + q.2.length) a) 0

/-- The irrelevant-skill penalty of `calculate_skills_score`: 1.5 per skill
outside the role's required categories when the role is in the weight table,
nothing otherwise (the source skips the subtraction, i.e. subtracts 0). -/
def rolePenalty (m : SkillsMap) (job_role : String) : ℚ :=
  match alookup industry_role_weights job_role with
  | some cfg => (irrelevantCount m cfg.required_skills : ℚ) * 1.5
  | none => 0

/-- `calculate_skills_score(resume_analysis, job_role="general")`. -/
def calculate_skills_score (ra : ResumeAnalysis) (job_role : String := "general") : ℚ :=
  if count_total_skills ra.skills = 0 then 0
  else
    max 0 (min (min ((count_total_skills ra.skills : ℚ) * 3) 90 +
      min ((ra.skills.length : ℚ) * 2) 10 - rolePenalty ra.skills job_role) 100)

/-- `calculate_experience_score`. -/
def calculate_experience_score (ra : ResumeAnalysis) : ℚ :=
  let years_score : ℚ := min ((ra.experience.max_years : ℚ) * 10) 80
  max 0 (min (years_score + (ra.experience.quality_score - 50) * 0.4) 100)

def degree_hierarchy_scores : List (String × ℚ) :=
  [("certificate", 40), ("diploma", 50), ("bachelor", 70), ("master", 85), ("phd", 95)]

/-- The degree-hierarchy maximum of `calculate_education_score` (the nested
`for degree / for level` max-update loop, starting from 0). -/
def degreeScore (degrees : List String) : ℚ :=
  degrees.foldl (fun a d =>
    degree_hierarchy_scores.foldl (fun a2 lv =>
      if containsStr lv.1 (lowerText d.data) then max a2 lv.2 else a2) a) 0

/-- The GPA bonus of `calculate_education_score`. -/
def gpaBonus : Option ℚ → ℚ
  | none => 0
  | some g => if 3.5 ≤ g then 10 else if 3 ≤ g then 5 else 0

/-- `calculate_education_score`. -/
def calculate_education_score (ra : ResumeAnalysis) : ℚ :=
  if ra.education.degrees.isEmpty then 30
  else
    min (degreeScore ra.education.degrees + gpaBonus ra.education.highest_gpa +
      (ra.education.education_quality - 50) * 0.2) 100

/-! ### Contextual bonus engine -/

/-- The fixed role → passion-category table of `calculate_passion_bonus`. -/
def passion_mapping : List (String × String) :=
  [("chef", "culinary"), ("cook", "culinary"), ("singer_performer", "music"),
   ("nurse", "healthcare"), ("software_engineer", "technology"),
   ("web_developer", "technology"), ("teacher", "education")]

/-- `calculate_passion_bonus(resume_text, job_role)`: +5 per indicator phrase
of the role's mapped category present in the lowercased text, capped at 15. -/
def calculate_passion_bonus (resume_text : String) (job_role : String) : ℕ :=
  let tl := lowerText resume_text.data
  let bonus :=
    match alookup passion_mapping job_role with
    | none => 0
    | some cat =>
      match alookup passion_indicators cat with
      | none => 0
      | some kws => kws.foldl (fun b k => if containsStr k tl then b + 5 else b) 0
  min bonus 15

/-- `calculate_demand_bonus`. -/
def calculate_demand_bonus (job_role : String) : ℕ :=
  if high_demand_roles.contains job_role then desperation_bonus_points else 0

/-- `_get_resume_text_from_analysis`: all extracted skill strings then all
achievement statements, space-joined and lowercased. -/
def get_resume_text_from_analysis (ra : ResumeAnalysis) : String :=
  let parts := ra.skills.foldl (fun acc p => p.2.foldl (fun a2 q => a2 ++ q.2) acc) []
      ++ ra.achievements.map (fun a => a.statement)
  lowerString (String.intercalate " " parts)

/-- `ContextualMatch`: the no-job-description branch of the source returns a
dict with only `match_level`, `bonus_points` and `reasoning`; the absent keys
are modelled as `none` (every consumer reads them with `.get`). -/
structure ContextualMatch where
  match_level : String
  bonus_points : ℕ
  skill_match_percentage : Option ℚ
  matched_categories : List String
  passion_bonus : Option ℕ
  demand_bonus : Option ℕ
deriving DecidableEq

/-- `calculate_contextual_role_match`. -/
def calculate_contextual_role_match (ra : ResumeAnalysis) :
    Option JobRequirements → ContextualMatch
  | none =>
    { match_level := "no_match", bonus_points := 0, skill_match_percentage := none,
      matched_categories := [], passion_bonus := none, demand_bonus := none }
  | some jr =>
    let required := ((alookup industry_role_weights jr.job_role).map
      (fun c => c.required_skills)).getD []
    let matched := required.filter (fun c => (alookup ra.skills c).isSome)
    let pct : ℚ :=
      if 0 < required.length then (matched.length : ℚ) / (required.length : ℚ) * 100 else 0
    let lvlBonus : String × ℕ :=
      if 80 ≤ pct then ("perfect_match", (alookup role_match_bonus "perfect_match").getD 0)
      else if 60 ≤ pct then ("good_match", (alookup role_match_bonus "good_match").getD 0)
      else if 30 ≤ pct then ("partial_match", (alookup role_match_bonus "partial_match").getD 0)
      else ("no_match", 0)
    let pb := calculate_passion_bonus (get_resume_text_from_analysis ra) jr.job_role
    let db := calculate_demand_bonus jr.job_role
    { match_level := lvlBonus.1, bonus_points := lvlBonus.2 + pb + db,
      skill_match_percentage := some pct, matched_categories := matched,
      passion_bonus := some pb, demand_bonus := some db }


/-! ### Overall scoring (`calculate_resume_score`)

The straight-line locals of the source method become named definitions so
that the claim theorems can speak about them directly. -/

/-- `job_requirements` (`{}` ↦ `none`; computed only for a non-blank
description). -/
def job_requirementsOf (jd : String) : Option JobRequirements :=
  if isBlankStr jd then none else some (extract_comprehensive_job_requirements jd)

def contextual_matchOf (rt jd : String) : ContextualMatch :=
  calculate_contextual_role_match (resume_analysisOf rt) (job_requirementsOf jd)

/-- `job_fit_analysis` (`{}` ↦ `none`). -/
def job_fit_analysisOf (rt jd : String) : Option FitScores :=
  match job_requirementsOf jd with
  | none => none
  | some jr => some (calculate_job_fit_score (resume_analysisOf rt) (some jr))

def skills_scoreOf (rt : String) : ℚ := calculate_skills_score (resume_analysisOf rt)

def experience_scoreOf (rt : String) : ℚ := calculate_experience_score (resume_analysisOf rt)

def education_scoreOf (rt : String) : ℚ := calculate_education_score (resume_analysisOf rt)

/-- `base_score`: the job-fit weighted blend when a job description was
supplied, the general blend otherwise. -/
def base_scoreOf (rt jd : String) : ℚ :=
  if isBlankStr jd then
    skills_scoreOf rt * 0.35 + experience_scoreOf rt * 0.30 +
      education_scoreOf rt * 0.25 + 50 * 0.10
  else
    (match job_fit_analysisOf rt jd with
     | some f => f.overall_fit
     | none => 50) * 0.7 +
      skills_scoreOf rt * 0.2 + experience_scoreOf rt * 0.15 + education_scoreOf rt * 0.05

def contextual_bonusOf (rt jd : String) : ℕ := (contextual_matchOf rt jd).bonus_points

/-- `job_role = job_requirements.get("job_role", "general") if job_requirements else "general"`. -/
def job_roleOf (jd : String) : String :=
  match job_requirementsOf jd with
  | some jr => jr.job_role
  | none => "general"

/-- `role_config.get("minimum_threshold", 0)`. -/
def minimum_thresholdOf (jd : String) : ℕ :=
  match alookup industry_role_weights (job_roleOf jd) with
  | some cfg => cfg.minimum_threshold
  | none => 0

/-- `final_score`: cap at 100, then raise to the role's minimum threshold for
contextually matched candidates. -/
def final_scoreOf (rt jd : String) : ℚ :=
  if ((contextual_matchOf rt jd).match_level = "perfect_match" ∨
      (contextual_matchOf rt jd).match_level = "good_match" ∨
      (contextual_matchOf rt jd).match_level = "partial_match") ∧
      min (base_scoreOf rt jd + (contextual_bonusOf rt jd : ℚ)) 100 <
        (minimum_thresholdOf jd : ℚ) then
    (minimum_thresholdOf jd : ℚ)
  else min (base_scoreOf rt jd + (contextual_bonusOf rt jd : ℚ)) 100

/-- The `detailed_scores` dict of the report. -/
structure DetailedScores where
  job_fit : Option ℚ
  skills : ℚ
  experience : ℚ
  education : ℚ
deriving DecidableEq

/-- `ScoreReport` (see header for the omitted display-string fields;
`experience_info`/`education_info` are flattened). -/
structure ScoreReport where
  overall_score : ℚ
  base_score : ℚ
  contextual_bonus : ℕ
  detailed_scores : DetailedScores
  contextual_analysis : ContextualMatch
  job_fit_analysis : Option FitScores
  experience_max_years : ℕ
  education_degrees : List String
  education_cgpa : Option ℚ
  achievements : List Achievement
  total_skills_count : ℕ
  job_role_identified : String
  confidence_level : ℚ
deriving DecidableEq

/-- `calculate_resume_score(resume_text, job_description)` (the `job_title`
parameter of the source is unused by the method body). -/
def calculate_resume_score (rt : String) (jd : String := "") : ScoreReport :=
  { overall_score := roundQ2 (max 0 (min (final_scoreOf rt jd) 100)),
    base_score := roundQ2 (base_scoreOf rt jd),
    contextual_bonus := contextual_bonusOf rt jd,
    detailed_scores :=
      { job_fit := (job_fit_analysisOf rt jd).map (fun f => f.overall_fit),
        skills := roundQ2 (skills_scoreOf rt),
        experience := roundQ2 (experience_scoreOf rt),
        education := roundQ2 (education_scoreOf rt) },
    contextual_analysis := contextual_matchOf rt jd,
    job_fit_analysis := job_fit_analysisOf rt jd,
    experience_max_years := (resume_analysisOf rt).experience.max_years,
    education_degrees := (resume_analysisOf rt).education.degrees,
    education_cgpa := (resume_analysisOf rt).education.highest_gpa,
    achievements := (resume_analysisOf rt).achievements,
    total_skills_count := count_total_skills (resume_analysisOf rt).skills,
    job_role_identified := job_roleOf jd,
    confidence_level :=
      match job_requirementsOf jd with
      | some jr => jr.role_confidence
      | none => 1/2 }


/-! ### Claim-refinement definitions -/

/-- Following claim C7's wording: the spec's pattern list additionally
contains "more than N years" — `more\s*than\s*(\d+)\s*(?:years?|yrs?)`. -/
def specMoreThanAt (l : Text) : Option (List ℕ × Text) :=
  if listPrefix "more".data l then
    let r1 := (l.drop 4).dropWhile isSpaceChar
    if listPrefix "than".data r1 then
      let r2 := (r1.drop 4).dropWhile isSpaceChar
      let d := r2.takeWhile Char.isDigit
      if d.isEmpty then none else
      match yearsTok ((r2.drop d.length).dropWhile isSpaceChar) with
      | none => none
      | some r3 => some ([natOfDigits d], r3)
    else none
  else none

/-- Following claim C7's wording: the integers matched by the six listed
phrasings — "N years of experience", "N-M years", "over N years",
"more than N years", "minimum N years", "at least N years". -/
def spec_years_found (text : String) : List ℕ :=
  let tl := lowerText text.data
  scanNats expPat1At tl.length tl ++ scanNats expPat2At tl.length tl ++
    scanNats expPat3At tl.length tl ++ scanNats specMoreThanAt tl.length tl ++
    scanNats jobExpPatMinAt tl.length tl ++ scanNats jobExpPatLeastAt tl.length tl

/-- Following claim C7's wording: the maximum integer found, or 0. -/
def spec_max_years (text : String) : ℕ := maxListD (spec_years_found text)

/-- Following claim C5's wording restricted to the text the code actually
searches: indicators of the role's mapped passion category present in a text. -/
def passionIndicatorCount (text : String) (job_role : String) : ℕ :=
  match alookup passion_mapping job_role with
  | none => 0
  | some cat =>
    match alookup passion_indicators cat with
    | none => 0
    | some kws => kws.countP (fun k => containsStr k (lowerText text.data))

/-- All recorded skill strings of a skill map, lowercased, in order. -/
def flattenSub : List (String × List String) → List String
  | [] => []
  | (_, sk) :: rest => sk.map lowerString ++ flattenSub rest

def allSkillStringsLower : SkillsMap → List String
  | [] => []
  | (_, subs) :: rest => flattenSub subs ++ allSkillStringsLower rest

/-! ### Rounding lemmas -/

theorem roundHalfEven_bounds (x : ℚ) :
    x - 1/2 ≤ (roundHalfEven x : ℚ) ∧ (roundHalfEven x : ℚ) ≤ x + 1/2 := by
  have h0 : (0 : ℚ) ≤ x - ⌊x⌋ := by
    have := Int.floor_le x; linarith
  have h1 : x - ⌊x⌋ < 1 := by
    have := Int.lt_floor_add_one x; linarith
  unfold roundHalfEven
  split_ifs <;> constructor <;> push_cast <;> linarith

theorem roundHalfEven_ge {x : ℚ} {m : ℤ} (h : (m : ℚ) ≤ x) : m ≤ roundHalfEven x := by
  have hb := (roundHalfEven_bounds x).1
  have h2 : (m - 1 : ℤ) < roundHalfEven x := by
    have : ((m - 1 : ℤ) : ℚ) < ((roundHalfEven x : ℤ) : ℚ) := by push_cast; linarith
    exact_mod_cast this
  omega

theorem roundHalfEven_le {x : ℚ} {m : ℤ} (h : x ≤ (m : ℚ)) : roundHalfEven x ≤ m := by
  have hb := (roundHalfEven_bounds x).2
  have h2 : roundHalfEven x < (m + 1 : ℤ) := by
    have : ((roundHalfEven x : ℤ) : ℚ) < ((m + 1 : ℤ) : ℚ) := by push_cast; linarith
    exact_mod_cast this
  omega

theorem roundQ2_nonneg {x : ℚ} (h : 0 ≤ x) : 0 ≤ roundQ2 x := by
  unfold roundQ2
  have : (0 : ℤ) ≤ roundHalfEven (100 * x) := roundHalfEven_ge (by push_cast; linarith)
  have : (0 : ℚ) ≤ (roundHalfEven (100 * x) : ℚ) := by exact_mod_cast this
  linarith [div_nonneg this (by norm_num : (0:ℚ) ≤ 100)]

theorem roundQ2_le_100 {x : ℚ} (h : x ≤ 100) : roundQ2 x ≤ 100 := by
  unfold roundQ2
  have h1 : roundHalfEven (100 * x) ≤ (10000 : ℤ) := roundHalfEven_le (by push_cast; linarith)
  have h2 : ((roundHalfEven (100 * x)) : ℚ) ≤ 10000 := by exact_mod_cast h1
  linarith

theorem roundQ2_nat_le {x : ℚ} (n : ℕ) (h : (n : ℚ) ≤ x) : (n : ℚ) ≤ roundQ2 x := by
  unfold roundQ2
  have h1 : ((n : ℤ) * 100) ≤ roundHalfEven (100 * x) := roundHalfEven_ge (by push_cast; linarith)
  have h2 : ((n : ℚ) * 100) ≤ ((roundHalfEven (100 * x)) : ℚ) := by exact_mod_cast h1
  linarith


/-! ### Score bound lemmas -/

theorem le_foldl_of_le {β : Type} (g : ℚ → β → ℚ) (hg : ∀ a x, a ≤ g a x) :
    ∀ (l : List β) (a : ℚ), a ≤ l.foldl g a := by
  intro l
  induction l with
  | nil => intro a; exact le_refl a
  | cons x t ih => intro a; exact le_trans (hg a x) (ih (g a x))

theorem calculate_skills_score_bounds (ra : ResumeAnalysis) (role : String) :
    0 ≤ calculate_skills_score ra role ∧ calculate_skills_score ra role ≤ 100 := by
  unfold calculate_skills_score
  split_ifs
  · norm_num
  · exact ⟨le_max_left 0 _, max_le (by norm_num) (min_le_right _ _)⟩

theorem calculate_experience_score_bounds (ra : ResumeAnalysis) :
    0 ≤ calculate_experience_score ra ∧ calculate_experience_score ra ≤ 100 := by
  unfold calculate_experience_score
  exact ⟨le_max_left 0 _, max_le (by norm_num) (min_le_right _ _)⟩

theorem assess_education_quality_ge_50 (t : String) :
    50 ≤ assess_education_quality t := by
  unfold assess_education_quality
  apply le_min _ (by norm_num)
  have h1 : (0:ℚ) ≤ (if prestigious_keywords.any (fun k => containsStr k (lowerText t.data)) then 20 else 0) := by
    split_ifs <;> norm_num
  have h2 : (0:ℚ) ≤ min (((academic_achievement_keywords.countP (fun k => containsStr k (lowerText t.data))) * 5 : ℚ)) 15 := by
    apply le_min _ (by norm_num)
    positivity
  linarith

theorem degreeScore_nonneg (degrees : List String) : 0 ≤ degreeScore degrees := by
  unfold degreeScore
  apply le_foldl_of_le
  intro a d
  apply le_foldl_of_le
  intro a2 lv
  split_ifs
  · exact le_max_left a2 lv.2
  · exact le_refl a2

theorem gpaBonus_nonneg (g : Option ℚ) : 0 ≤ gpaBonus g := by
  unfold gpaBonus
  rcases g with _ | g
  · norm_num
  · dsimp only
    split_ifs <;> norm_num

theorem calculate_education_score_bounds (ra : ResumeAnalysis)
    (hq : 50 ≤ ra.education.education_quality) :
    0 ≤ calculate_education_score ra ∧ calculate_education_score ra ≤ 100 := by
  unfold calculate_education_score
  split_ifs
  · norm_num
  · constructor
    · apply le_min _ (by norm_num)
      have hds := degreeScore_nonneg ra.education.degrees
      have hgb := gpaBonus_nonneg ra.education.highest_gpa
      linarith
    · exact min_le_right _ _

/-! ### Claim C1 -/

def C1_resume_text : String :=
  "lpn cna bls ecg mri mba 1 yrs exp 6 years exp"

def C1_job_description : String :=
  "lpn cna bls ecg mri mba 1 yrs exp 6 years exp"

unseal Rat.add Rat.mul Rat.sub Rat.inv Rat.ofScientific in
/-- Claim C1 as stated is false: for the resume/job-description pair above
the identified role is "nurse", whose weight map (0.50 skills + 0.30
experience + 0.15 education) plus the fixed 0.1 keyword weight sums to 1.05,
and with perfect skill, experience and education sub-fits and keyword match
500/9 the reported `detailed_scores.job_fit` is 2514/25 = 100.56 > 100. -/
theorem C1_counterexample :
    (calculate_resume_score C1_resume_text C1_job_description).detailed_scores.job_fit
        = some (2514/25) ∧
      (100 : ℚ) < 2514/25 := by
  constructor
  · decide
  · norm_num

/-- Claim C1, amended: `overall_score` and the `skills`, `experience` and
`education` entries of `detailed_scores` always lie in [0, 100]; the
`job_fit` entry is exempt (it can exceed 100, see `C1_counterexample`). -/
theorem C1_amended (rt jd : String) :
    0 ≤ (calculate_resume_score rt jd).overall_score ∧
      (calculate_resume_score rt jd).overall_score ≤ 100 ∧
      0 ≤ (calculate_resume_score rt jd).detailed_scores.skills ∧
      (calculate_resume_score rt jd).detailed_scores.skills ≤ 100 ∧
      0 ≤ (calculate_resume_score rt jd).detailed_scores.experience ∧
      (calculate_resume_score rt jd).detailed_scores.experience ≤ 100 ∧
      0 ≤ (calculate_resume_score rt jd).detailed_scores.education ∧
      (calculate_resume_score rt jd).detailed_scores.education ≤ 100 := by
  have hsk := calculate_skills_score_bounds (resume_analysisOf rt) "general"
  have hex := calculate_experience_score_bounds (resume_analysisOf rt)
  have hed := calculate_education_score_bounds (resume_analysisOf rt)
    (assess_education_quality_ge_50 rt)
  refine ⟨?_, ?_, ?_, ?_, ?_, ?_, ?_, ?_⟩
  · exact roundQ2_nonneg (le_max_left 0 _)
  · exact roundQ2_le_100 (max_le (by norm_num) (min_le_right _ _))
  · exact roundQ2_nonneg hsk.1
  · exact roundQ2_le_100 hsk.2
  · exact roundQ2_nonneg hex.1
  · exact roundQ2_le_100 hex.2
  · exact roundQ2_nonneg hed.1
  · exact roundQ2_le_100 hed.2


/-! ### Claim C2 -/

theorem alookup_some_mem {α : Type} {l : List (String × α)} {k : String} {v : α}
    (h : alookup l k = some v) : ∃ k2, (k2, v) ∈ l := by
  induction l with
  | nil => simp [alookup] at h
  | cons p t ih =>
    obtain ⟨a, b⟩ := p
    simp only [alookup] at h
    split at h
    · injection h with hbv
      exact ⟨a, by rw [← hbv]; exact List.mem_cons_self _ _⟩
    · obtain ⟨k2, hk⟩ := ih h
      exact ⟨k2, List.mem_cons_of_mem _ hk⟩

theorem minimum_threshold_le_100 (jd : String) : ((minimum_thresholdOf jd : ℕ) : ℚ) ≤ 100 := by
  unfold minimum_thresholdOf
  rcases h : alookup industry_role_weights (job_roleOf jd) with _ | cfg
  · norm_num
  · obtain ⟨k2, hk⟩ := alookup_some_mem h
    have hall : ∀ p ∈ industry_role_weights, p.2.minimum_threshold ≤ 100 := by decide
    have := hall (k2, cfg) hk
    exact_mod_cast Nat.cast_le.mpr this

/-- Claim C2: the reported overall score is the (rounded, clamped)
`min(base_score + contextual_bonus, 100)`, except that a contextually matched
candidate below the identified role's minimum threshold is raised to exactly
that threshold; in particular a perfect match never scores below the
threshold. -/
theorem C2_threshold_floor (rt jd : String) :
    ((calculate_resume_score rt jd).overall_score =
      roundQ2 (max 0 (min (
        if ((contextual_matchOf rt jd).match_level = "perfect_match" ∨
              (contextual_matchOf rt jd).match_level = "good_match" ∨
              (contextual_matchOf rt jd).match_level = "partial_match") ∧
            min (base_scoreOf rt jd + (contextual_bonusOf rt jd : ℚ)) 100 <
              (minimum_thresholdOf jd : ℚ) then
          (minimum_thresholdOf jd : ℚ)
        else min (base_scoreOf rt jd + (contextual_bonusOf rt jd : ℚ)) 100) 100))) ∧
    ((contextual_matchOf rt jd).match_level = "perfect_match" →
      (minimum_thresholdOf jd : ℚ) ≤ (calculate_resume_score rt jd).overall_score) := by
  constructor
  · rfl
  · intro hpm
    have h1 : (minimum_thresholdOf jd : ℚ) ≤ final_scoreOf rt jd := by
      unfold final_scoreOf
      split_ifs with hc
      · exact le_refl _
      · push_neg at hc
        exact hc (Or.inl hpm)
    have h2 : (minimum_thresholdOf jd : ℚ) ≤ max 0 (min (final_scoreOf rt jd) 100) :=
      le_trans (le_min h1 (minimum_threshold_le_100 jd)) (le_max_right 0 _)
    exact roundQ2_nat_le (minimum_thresholdOf jd) h2

unseal Rat.add Rat.mul Rat.sub Rat.inv Rat.ofScientific in
theorem C2_witness :
    (minimum_thresholdOf "xyz" : ℚ) ≤ (calculate_resume_score "teamwork" "xyz").overall_score :=
  (C2_threshold_floor "teamwork" "xyz").2 (by decide)

/-! ### Claim C3 -/

/-- Claim C3: with a non-blank job description the reported base score is the
rounded `0.7·job_fit + 0.2·skills + 0.15·experience + 0.05·education`, with
exactly these constants (whose sum is 1.10 — no renormalization). -/
theorem C3_base_score_weights (rt jd : String) (h : isBlankStr jd = false) :
    ((calculate_resume_score rt jd).base_score =
      roundQ2 (0.7 * (calculate_job_fit_score (resume_analysisOf rt) (job_requirementsOf jd)).overall_fit +
        0.2 * calculate_skills_score (resume_analysisOf rt) +
        0.15 * calculate_experience_score (resume_analysisOf rt) +
        0.05 * calculate_education_score (resume_analysisOf rt))) ∧
    (0.7 + 0.2 + 0.15 + 0.05 : ℚ) = 1.1 := by
  constructor
  · have hreq : job_requirementsOf jd = some (extract_comprehensive_job_requirements jd) := by
      simp [job_requirementsOf, h]
    show roundQ2 (base_scoreOf rt jd) = _
    simp only [base_scoreOf, job_fit_analysisOf, skills_scoreOf, experience_scoreOf,
      education_scoreOf, hreq, h, Bool.false_eq_true, if_false]
    congr 1
    ring
  · norm_num

theorem C3_witness :
    (calculate_resume_score "" "xyz").base_score =
      roundQ2 (0.7 * (calculate_job_fit_score (resume_analysisOf "") (job_requirementsOf "xyz")).overall_fit +
        0.2 * calculate_skills_score (resume_analysisOf "") +
        0.15 * calculate_experience_score (resume_analysisOf "") +
        0.05 * calculate_education_score (resume_analysisOf "")) :=
  (C3_base_score_weights "" "xyz" (by decide)).1

/-! ### Claim C9 -/

/-- Claim C9: the skills sub-score of the report is computed with the role
parameter left at its default "general", so every extracted skill outside the
`soft_skills` category (the only required category of "general") incurs the
1.5-point penalty, whatever role the job description identifies. -/
theorem C9_skills_score_role_blind (rt jd : String) :
    (calculate_resume_score rt jd).detailed_scores.skills =
      roundQ2 (if count_total_skills (extract_skills_with_context rt) = 0 then 0
        else max 0 (min (min ((count_total_skills (extract_skills_with_context rt) : ℚ) * 3) 90 +
          min (((extract_skills_with_context rt).length : ℚ) * 2) 10 -
          (irrelevantCount (extract_skills_with_context rt) ["soft_skills"] : ℚ) * 1.5) 100)) := by
  show roundQ2 (skills_scoreOf rt) = _
  unfold skills_scoreOf calculate_skills_score rolePenalty
  rw [show alookup industry_role_weights "general" = some
      { required_skills := ["soft_skills"], preferred_skills := [],
        weights := [("skills", 0.3), ("experience", 0.3), ("education", 0.25), ("potential", 0.15)],
        contextual_bonus := 40, minimum_threshold := 30 } from rfl]
  rfl


/-! ### Claim C4 -/

/-- Claim C4 as stated is false: "spss" is listed both under
`programming_languages/data_science` and under `market_research/tools`, and
matches the text "spss", yet the extractor records it only under the first
category in taxonomy order — the global `found_skill_texts` set suppresses
the second occurrence. -/
theorem C4_counterexample :
    (((alookup skills_db "programming_languages").getD []).any
        (fun sp => sp.1 == "data_science" && sp.2.contains "spss")) = true ∧
    (((alookup skills_db "market_research").getD []).any
        (fun sp => sp.1 == "tools" && sp.2.contains "spss")) = true ∧
    is_exact_skill_match "spss" (wtext (lowerText "spss".data)) = true ∧
    extract_skills_with_context "spss" =
      [("programming_languages", [("data_science", ["spss"])])] :=
  ⟨by decide, by decide, by decide, by decide⟩

theorem contains_false_not_mem {l : List String} {s : String}
    (h : l.contains s = false) : s ∉ l := by
  simp at h
  exact h

theorem matchSkills_found (skills : List String) (wl : WText) :
    ∀ found, (matchSkills skills wl found).2 =
      found ++ (matchSkills skills wl found).1.map lowerString := by
  induction skills with
  | nil => intro found; simp [matchSkills]
  | cons s rest ih =>
    intro found
    simp only [matchSkills]
    split_ifs with h1 h2
    · exact ih found
    · simp only [List.map_cons]
      rw [ih (found ++ [lowerString s])]
      simp
    · exact ih found

theorem matchSkills_nodup (skills : List String) (wl : WText) :
    ∀ found, ((matchSkills skills wl found).1.map lowerString).Nodup ∧
      ∀ x ∈ (matchSkills skills wl found).1.map lowerString, x ∉ found := by
  induction skills with
  | nil => intro found; simp [matchSkills]
  | cons s rest ih =>
    intro found
    simp only [matchSkills]
    split_ifs with h1 h2
    · exact ih found
    · have hrec := ih (found ++ [lowerString s])
      simp only [List.map_cons]
      constructor
      · refine List.nodup_cons.mpr ⟨?_, hrec.1⟩
        intro hmem
        exact hrec.2 _ hmem (by simp)
      · intro x hx
        rcases List.mem_cons.mp hx with hx1 | hx2
        · subst hx1
          intro hxf
          exact h1 (by simpa using hxf)
        · intro hxf
          exact hrec.2 _ hx2 (by simp [hxf])
    · exact ih found

theorem matchSubcats_found (subs : List (String × List String)) (wl : WText) :
    ∀ found, (matchSubcats subs wl found).2 =
      found ++ flattenSub (matchSubcats subs wl found).1 := by
  induction subs with
  | nil => intro found; simp [matchSubcats, flattenSub]
  | cons p rest ih =>
    intro found
    obtain ⟨sub, skills⟩ := p
    simp only [matchSubcats]
    rw [ih (matchSkills skills wl found).2]
    rw [matchSkills_found skills wl found]
    by_cases he : (matchSkills skills wl found).1.isEmpty
    · rw [if_pos he]
      rw [List.isEmpty_iff.mp he]
      simp
    · rw [if_neg he]
      simp [flattenSub]

theorem matchSubcats_nodup (subs : List (String × List String)) (wl : WText) :
    ∀ found, (flattenSub (matchSubcats subs wl found).1).Nodup ∧
      ∀ x ∈ flattenSub (matchSubcats subs wl found).1, x ∉ found := by
  induction subs with
  | nil => intro found; simp [matchSubcats, flattenSub]
  | cons p rest ih =>
    intro found
    obtain ⟨sub, skills⟩ := p
    simp only [matchSubcats]
    have h1 := matchSkills_nodup skills wl found
    have hfound := matchSkills_found skills wl found
    have hrec := ih (matchSkills skills wl found).2
    by_cases he : (matchSkills skills wl found).1.isEmpty
    · rw [if_pos he]
      refine ⟨hrec.1, fun x hx hxf => hrec.2 x hx ?_⟩
      rw [hfound]
      exact List.mem_append_left _ hxf
    · rw [if_neg he]
      have hdisj : ∀ x ∈ flattenSub (matchSubcats rest wl (matchSkills skills wl found).2).1,
          x ∉ (matchSkills skills wl found).1.map lowerString := by
        intro x hx hxm
        exact hrec.2 x hx (by rw [hfound]; exact List.mem_append_right _ hxm)
      constructor
      · show ((matchSkills skills wl found).1.map lowerString ++
          flattenSub (matchSubcats rest wl (matchSkills skills wl found).2).1).Nodup
        refine List.Nodup.append h1.1 hrec.1 ?_
        intro x hxm hxflat
        exact hdisj x hxflat hxm
      · show ∀ x ∈ (matchSkills skills wl found).1.map lowerString ++
          flattenSub (matchSubcats rest wl (matchSkills skills wl found).2).1, x ∉ found
        intro x hx
        rcases List.mem_append.mp hx with hx1 | hx2
        · exact h1.2 x hx1
        · intro hxf
          exact hrec.2 x hx2 (by rw [hfound]; exact List.mem_append_left _ hxf)

theorem matchCats_nodup (db : List (String × List (String × List String))) (wl : WText) :
    ∀ found, (allSkillStringsLower (matchCats db wl found).1).Nodup ∧
      ∀ x ∈ allSkillStringsLower (matchCats db wl found).1, x ∉ found := by
  induction db with
  | nil => intro found; simp [matchCats, allSkillStringsLower]
  | cons p rest ih =>
    intro found
    obtain ⟨cat, subs⟩ := p
    simp only [matchCats]
    have h1 := matchSubcats_nodup subs wl found
    have hfound := matchSubcats_found subs wl found
    have hrec := ih (matchSubcats subs wl found).2
    by_cases he : (matchSubcats subs wl found).1.isEmpty
    · rw [if_pos he]
      have hflat : flattenSub (matchSubcats subs wl found).1 = [] := by
        rw [List.isEmpty_iff.mp he]; rfl
      refine ⟨hrec.1, fun x hx hxf => hrec.2 x hx ?_⟩
      rw [hfound, hflat]
      simpa using hxf
    · rw [if_neg he]
      have hdisj : ∀ x ∈ allSkillStringsLower (matchCats rest wl (matchSubcats subs wl found).2).1,
          x ∉ flattenSub (matchSubcats subs wl found).1 := by
        intro x hx hxm
        exact hrec.2 x hx (by rw [hfound]; exact List.mem_append_right _ hxm)
      constructor
      · show (flattenSub (matchSubcats subs wl found).1 ++
          allSkillStringsLower (matchCats rest wl (matchSubcats subs wl found).2).1).Nodup
        refine List.Nodup.append h1.1 hrec.1 ?_
        intro x hxm hxflat
        exact hdisj x hxflat hxm
      · show ∀ x ∈ flattenSub (matchSubcats subs wl found).1 ++
          allSkillStringsLower (matchCats rest wl (matchSubcats subs wl found).2).1, x ∉ found
        intro x hx
        rcases List.mem_append.mp hx with hx1 | hx2
        · exact h1.2 x hx1
        · intro hxf
          exact hrec.2 x hx2 (by rw [hfound]; exact List.mem_append_left _ hxf)

theorem validateSubcats_sublist (tl : Text) (subs : List (String × List String)) :
    List.Sublist (flattenSub (validateSubcats tl subs)) (flattenSub subs) := by
  induction subs with
  | nil => simp [validateSubcats]
  | cons p rest ih =>
    obtain ⟨sub, skills⟩ := p
    simp only [validateSubcats]
    split_ifs with he
    · exact ih.trans (by simp [flattenSub])
    · exact List.Sublist.append ((List.filter_sublist skills).map lowerString) ih

theorem validate_sublist (m : SkillsMap) (tl : Text) :
    List.Sublist (allSkillStringsLower (validate_skills_in_context m tl))
      (allSkillStringsLower m) := by
  induction m with
  | nil => simp [validate_skills_in_context]
  | cons p rest ih =>
    obtain ⟨cat, subs⟩ := p
    simp only [validate_skills_in_context]
    split_ifs with he
    · exact ih.trans (by simp [allSkillStringsLower])
    · exact List.Sublist.append (validateSubcats_sublist tl subs) ih

/-- Claim C4, amended: because of the global `found_skill_texts`
deduplication, every skill string is recorded at most once in the whole
extraction result — under the first (category, subcategory) of taxonomy
iteration order where it matches — never independently under a second
category. -/
theorem C4_amended (t : String) :
    (allSkillStringsLower (extract_skills_with_context t)).Nodup := by
  unfold extract_skills_with_context
  exact List.Sublist.nodup (validate_sublist _ _)
    (matchCats_nodup skills_db (wtext (lowerText t.data)) []).1


/-! ### Claim C5 -/

theorem passion_foldl (tl : Text) (kws : List String) :
    ∀ b, kws.foldl (fun b k => if containsStr k tl then b + 5 else b) b =
      b + 5 * kws.countP (fun k => containsStr k tl) := by
  induction kws with
  | nil => intro b; simp
  | cons k rest ih =>
    intro b
    simp only [List.foldl_cons, List.countP_cons]
    split_ifs with h
    · rw [ih]
      ring
    · rw [ih]
      ring

theorem calculate_passion_bonus_eq (text : String) (role : String) :
    calculate_passion_bonus text role = min (5 * passionIndicatorCount text role) 15 := by
  cases h1 : alookup passion_mapping role with
  | none => simp [calculate_passion_bonus, passionIndicatorCount, h1]
  | some cat =>
    cases h2 : alookup passion_indicators cat with
    | none => simp [calculate_passion_bonus, passionIndicatorCount, h1, h2]
    | some kws =>
      simp only [calculate_passion_bonus, passionIndicatorCount, h1, h2]
      rw [passion_foldl]
      rw [Nat.zero_add]

unseal Rat.add Rat.mul Rat.sub Rat.inv Rat.ofScientific in
/-- Claim C5 as stated is false: the passion bonus is computed over the text
reconstructed from *extracted* skills and achievement statements, not over
the raw résumé text.  For the résumé "passion for cooking" (which matches no
taxonomy skill and no achievement pattern) the pipeline awards bonus 0, even
though applying the very same bonus function to the raw résumé text yields
the 5 points the claim predicts. -/
theorem C5_counterexample :
    (calculate_resume_score "passion for cooking" "chef").contextual_analysis.passion_bonus
        = some 0 ∧
      calculate_passion_bonus "passion for cooking" "chef" = 5 :=
  ⟨by decide, by decide⟩

/-- Claim C5, amended: with a job description present, the passion bonus is
5 per distinct passion indicator of the identified role's mapped category
found in the *reconstructed* text (extracted skill strings and achievement
statements, joined and lowercased), capped at 15. -/
theorem C5_amended (rt jd : String) (h : isBlankStr jd = false) :
    (calculate_resume_score rt jd).contextual_analysis.passion_bonus =
      some (min (5 * passionIndicatorCount
        (get_resume_text_from_analysis (resume_analysisOf rt)) (job_roleOf jd)) 15) := by
  have hreq : job_requirementsOf jd = some (extract_comprehensive_job_requirements jd) := by
    simp [job_requirementsOf, h]
  have hrole : job_roleOf jd = (extract_comprehensive_job_requirements jd).job_role := by
    simp [job_roleOf, hreq]
  show (contextual_matchOf rt jd).passion_bonus = _
  unfold contextual_matchOf
  rw [hreq, hrole]
  simp only [calculate_contextual_role_match]
  rw [calculate_passion_bonus_eq]

theorem C5_witness :
    (calculate_resume_score "" "xyz").contextual_analysis.passion_bonus =
      some (min (5 * passionIndicatorCount
        (get_resume_text_from_analysis (resume_analysisOf "")) (job_roleOf "xyz")) 15) :=
  C5_amended "" "xyz" (by decide)

/-! ### Claim C6 -/

/-- Claim C6 as stated is false: it requires impact "high" whenever a dollar
amount is present, but when any percentage is found the code never consults
the dollar test — this achievement contains "$40" yet is classified "low"
because its only percentage is 5. -/
theorem C6_counterexample :
    extract_quantified_achievements "increased sales by 5% earning $40" =
      [{ statement := "increased sales by 5% earning $40", achievement_type := "financial",
         impact_level := "low" }] ∧
    hasDollarNum (lowerText "increased sales by 5% earning $40".data) = true :=
  ⟨by decide, by decide⟩

/-- Claim C6, amended: the impact level is "high"/"medium"/"low" by the
maximal embedded percentage (≥50 / [20,50) / below 20) whenever any
percentage is present — the dollar amount is ignored in that case — and only
with no percentage at all does a dollar amount give "high", else "medium". -/
theorem C6_amended (a : Text) :
    (findPcts a.length a ≠ [] → 50 ≤ maxListD (findPcts a.length a) →
      assess_impact_level a = "high") ∧
    (findPcts a.length a ≠ [] → maxListD (findPcts a.length a) < 50 →
      20 ≤ maxListD (findPcts a.length a) → assess_impact_level a = "medium") ∧
    (findPcts a.length a ≠ [] → maxListD (findPcts a.length a) < 20 →
      assess_impact_level a = "low") ∧
    (findPcts a.length a = [] → hasDollarNum a = true → assess_impact_level a = "high") ∧
    (findPcts a.length a = [] → hasDollarNum a = false → assess_impact_level a = "medium") := by
  rcases hp : findPcts a.length a with _ | ⟨p, ps⟩
  · refine ⟨fun hne => absurd rfl hne, fun hne => absurd rfl hne, fun hne => absurd rfl hne,
      fun _ hd => ?_, fun _ hd => ?_⟩ <;>
      simp [assess_impact_level, hp, hd]
  · have hm : maxListD (p :: ps) = (p :: ps).foldr max 0 := rfl
    refine ⟨fun _ h50 => ?_, fun _ hlt h20 => ?_, fun _ hlt => ?_,
      fun hemp => absurd hemp (List.cons_ne_nil p ps),
      fun hemp => absurd hemp (List.cons_ne_nil p ps)⟩
    · rw [hm] at h50
      simp only [assess_impact_level, hp]
      split_ifs <;> first | rfl | (exfalso; omega)
    · rw [hm] at hlt h20
      simp only [assess_impact_level, hp]
      split_ifs <;> first | rfl | (exfalso; omega)
    · rw [hm] at hlt
      simp only [assess_impact_level, hp]
      split_ifs <;> first | rfl | (exfalso; omega)

theorem C6_witness :
    assess_impact_level ("increased output by 60%".data) = "high" :=
  (C6_amended ("increased output by 60%".data)).1 (by decide) (by decide)

/-! ### Claim C7 -/

/-- Claim C7 as stated is false: the résumé-side extractor has no
"minimum N years" pattern (that pattern exists only in the job-requirement
extractor), so "minimum 4 years" yields `max_years = 0` although the claim's
pattern list would collect 4. -/
theorem C7_counterexample :
    (extract_experience_with_quality "minimum 4 years").max_years = 0 ∧
    spec_max_years "minimum 4 years" = 4 :=
  ⟨by decide, by decide⟩

theorem le_maxListD (l : List ℕ) : ∀ y ∈ l, y ≤ maxListD l := by
  induction l with
  | nil => simp
  | cons x t ih =>
    intro y hy
    rcases List.mem_cons.mp hy with h | h
    · subst h
      exact le_max_left y (maxListD t)
    · exact le_trans (ih y h) (le_max_right x (maxListD t))

theorem maxListD_mem (l : List ℕ) (h : l ≠ []) : maxListD l ∈ l := by
  induction l with
  | nil => exact absurd rfl h
  | cons x t ih =>
    by_cases ht : t = []
    · subst ht
      show max x (maxListD []) ∈ [x]
      simp [maxListD]
    · show max x (maxListD t) ∈ x :: t
      rcases le_or_lt (maxListD t) x with h1 | h1
      · rw [max_eq_left h1]
        exact List.mem_cons_self x t
      · rw [max_eq_right (le_of_lt h1)]
        exact List.mem_cons_of_mem _ (ih ht)

/-- Claim C7, amended: the extractor collects the integers of its own four
patterns (`years_foundOf`: "N(+) years (of) experience/exp", "N-M years",
"over N years", "N years (of) (professional) experience/exp" — not
"more than"/"minimum"/"at least N years" without an experience word), and
`max_years` is the maximum collected integer, or 0 when none is found. -/
theorem C7_amended (t : String) :
    (∀ y ∈ years_foundOf t, y ≤ (extract_experience_with_quality t).max_years) ∧
    ((extract_experience_with_quality t).max_years ∈ years_foundOf t ∨
      (years_foundOf t = [] ∧ (extract_experience_with_quality t).max_years = 0)) := by
  constructor
  · intro y hy
    exact le_maxListD (years_foundOf t) y hy
  · by_cases h : years_foundOf t = []
    · right
      refine ⟨h, ?_⟩
      show maxListD (years_foundOf t) = 0
      rw [h]
      rfl
    · left
      exact maxListD_mem (years_foundOf t) h

theorem C7_witness :
    (3 : ℕ) ∈ years_foundOf "3 years of experience" ∧
      3 ≤ (extract_experience_with_quality "3 years of experience").max_years :=
  ⟨by decide, (C7_amended "3 years of experience").1 3 (by decide)⟩

/-! ### Claim C8 -/

theorem pickBest_snd_le (l : List (String × ℚ)) : ∀ b, b.2 ≤ (pickBest b l).2 := by
  induction l with
  | nil => intro b; exact le_refl b.2
  | cons q t ih =>
    intro b
    show b.2 ≤ (pickBest (if b.2 < q.2 then q else b) t).2
    by_cases h : b.2 < q.2
    · rw [if_pos h]
      exact le_of_lt (lt_of_lt_of_le h (ih q))
    · rw [if_neg h]
      exact ih b

theorem pickBest_eq_or_lt (l : List (String × ℚ)) :
    ∀ b, pickBest b l = b ∨ b.2 < (pickBest b l).2 := by
  induction l with
  | nil => intro b; exact Or.inl rfl
  | cons q t ih =>
    intro b
    show pickBest (if b.2 < q.2 then q else b) t = b ∨
      b.2 < (pickBest (if b.2 < q.2 then q else b) t).2
    by_cases h : b.2 < q.2
    · rw [if_pos h]
      exact Or.inr (lt_of_lt_of_le h (pickBest_snd_le t q))
    · rw [if_neg h]
      exact ih b

theorem pickBest_mem_cons (l : List (String × ℚ)) : ∀ b, pickBest b l ∈ b :: l := by
  induction l with
  | nil => intro b; exact List.mem_cons_self b []
  | cons q t ih =>
    intro b
    show pickBest (if b.2 < q.2 then q else b) t ∈ b :: q :: t
    by_cases h : b.2 < q.2
    · rw [if_pos h]
      rcases List.mem_cons.mp (ih q) with h1 | h1
      · rw [h1]
        exact List.mem_cons_of_mem b (List.mem_cons_self q t)
      · exact List.mem_cons_of_mem b (List.mem_cons_of_mem q h1)
    · rw [if_neg h]
      rcases List.mem_cons.mp (ih b) with h1 | h1
      · rw [h1]
        exact List.mem_cons_self b (q :: t)
      · exact List.mem_cons_of_mem b (List.mem_cons_of_mem q h1)

theorem pickBest_ub (l : List (String × ℚ)) :
    ∀ b p, p ∈ b :: l → p.2 ≤ (pickBest b l).2 := by
  induction l with
  | nil =>
    intro b p hp
    rcases List.mem_cons.mp hp with h | h
    · rw [h]
      exact le_refl b.2
    · exact absurd h (List.not_mem_nil p)
  | cons q t ih =>
    intro b p hp
    show p.2 ≤ (pickBest (if b.2 < q.2 then q else b) t).2
    rcases List.mem_cons.mp hp with h1 | h1
    · subst h1
      by_cases h : p.2 < q.2
      · rw [if_pos h]
        exact le_of_lt (lt_of_lt_of_le h (pickBest_snd_le t q))
      · rw [if_neg h]
        exact pickBest_snd_le t p
    · rcases List.mem_cons.mp h1 with h2 | h2
      · subst h2
        by_cases h : b.2 < p.2
        · rw [if_pos h]
          exact pickBest_snd_le t p
        · rw [if_neg h]
          exact le_trans (le_of_not_lt h) (pickBest_snd_le t b)
      · exact ih (if b.2 < q.2 then q else b) p (List.mem_cons_of_mem _ h2)

theorem pickBest_find_aux (l : List (String × ℚ)) : ∀ b, pickBest b l = b ∨
    (b.2 < (pickBest b l).2 ∧
      l.find? (fun p => decide ((pickBest b l).2 ≤ p.2)) = some (pickBest b l)) := by
  induction l with
  | nil => intro b; exact Or.inl rfl
  | cons q t ih =>
    intro b
    show pickBest (if b.2 < q.2 then q else b) t = b ∨
      (b.2 < (pickBest (if b.2 < q.2 then q else b) t).2 ∧
        (q :: t).find? (fun p => decide ((pickBest (if b.2 < q.2 then q else b) t).2 ≤ p.2)) =
          some (pickBest (if b.2 < q.2 then q else b) t))
    by_cases h : b.2 < q.2
    · rw [if_pos h]
      right
      refine ⟨lt_of_lt_of_le h (pickBest_snd_le t q), ?_⟩
      rcases ih q with h1 | ⟨h1, h2⟩
      · rw [h1, List.find?_cons_of_pos _ (by simp)]
      · rw [List.find?_cons_of_neg _ (by simp [not_le]; exact h1)]
        exact h2
    · rw [if_neg h]
      rcases ih b with h1 | ⟨h1, h2⟩
      · exact Or.inl h1
      · right
        refine ⟨h1, ?_⟩
        rw [List.find?_cons_of_neg _ (by simp [not_le]; exact lt_of_le_of_lt (le_of_not_lt h) h1)]
        exact h2

theorem pickBest_find (l : List (String × ℚ)) :
    ∀ b, (b :: l).find? (fun p => decide ((pickBest b l).2 ≤ p.2)) = some (pickBest b l) := by
  intro b
  rcases pickBest_find_aux l b with h | ⟨h1, h2⟩
  · rw [h, List.find?_cons_of_pos _ (by simp)]
  · rw [List.find?_cons_of_neg _ (by simp [not_le]; exact h1)]
    exact h2

/-- Claim C8: role identification returns, among the roles scoring positively
(`roleScores`, whose entries carry confidence `min(matched/total, 1)` in table
order), an entry attaining the maximum confidence, and precisely the *first*
entry attaining it (the `find?` conjunct); with no positively scoring role the
result is `("general", 0)`. -/
theorem C8_role_identification (jd : String) :
    (roleScores jd = [] → identify_job_role_with_confidence jd = ("general", 0)) ∧
    (roleScores jd ≠ [] →
      identify_job_role_with_confidence jd ∈ roleScores jd ∧
      (∀ p ∈ roleScores jd, p.2 ≤ (identify_job_role_with_confidence jd).2) ∧
      (roleScores jd).find?
          (fun p => decide ((identify_job_role_with_confidence jd).2 ≤ p.2)) =
        some (identify_job_role_with_confidence jd)) := by
  by_cases he : jd = ""
  · subst he
    have hrs : roleScores "" = [] := by decide
    exact ⟨fun _ => rfl, fun hne => absurd hrs hne⟩
  · have hbeq : (jd == "") = false := by
      rw [beq_eq_false_iff_ne]
      exact he
    constructor
    · intro hrs
      simp [identify_job_role_with_confidence, hbeq, hrs]
    · intro hne
      obtain ⟨p, rest, hpr⟩ : ∃ p rest, roleScores jd = p :: rest := by
        cases h : roleScores jd with
        | nil => exact absurd h hne
        | cons p r => exact ⟨p, r, rfl⟩
      have hid : identify_job_role_with_confidence jd = pickBest p rest := by
        simp [identify_job_role_with_confidence, hbeq, hpr]
      rw [hid, hpr]
      exact ⟨pickBest_mem_cons rest p, fun q hq => pickBest_ub rest p q hq,
        pickBest_find rest p⟩

unseal Rat.add Rat.mul Rat.sub Rat.inv Rat.ofScientific in
theorem C8_witness :
    roleScores "modern" ≠ [] ∧
      identify_job_role_with_confidence "modern" ∈ roleScores "modern" :=
  ⟨by decide, ((C8_role_identification "modern").2 (by decide)).1⟩

/-! ### Claim C10 -/

unseal Rat.add Rat.mul Rat.sub Rat.inv Rat.ofScientific in
/-- Claim C10: keyword matching is substring containment on the lowercased
text, not word-boundary matching — the job description "modern" contains the
nurse keyword "rn" as a substring, so the nurse role scores 1/8 (one of its
eight keywords) and is in fact the identified role. -/
theorem C10_substring_matching :
    containsStr "rn" (lowerText "modern".data) = true ∧
    roleScores "modern" = [("nurse", 1/8)] ∧
    identify_job_role_with_confidence "modern" = ("nurse", 1/8) :=
  ⟨by decide, by decide, by decide⟩

end ResumeScreener
